import Mathlib

/-!
# ectpping: packet validation, frame building, the forward chain, RTT statistics,
the transmit loop and the shutdown

A shallow embedding of `src/ectpping.c`.

Conventions of the embedding.

* A byte buffer is a `List Nat`; a C pointer into a buffer is the offset of the
  pointed-to byte.  A read at offset `i` is `List.getD _ i 0`, so a byte outside the
  modelled buffer reads as `0`.  A byte is a natural number below 256; no definition
  relies on that bound, and a value stored into a field is reduced to the field width.
* The library `libectp` (`libectp.h`, `libectp.c`) is not among the sources.  Its
  constants and functions used by `ectpping.c` are modelled from the wire layout and
  the codec description of the specification; each such definition says so.
* `struct timeval` fields are `Int` (`time_t` and `suseconds_t` are signed); they are
  `long` values of 64 bits, and every addition and subtraction on them is reduced to that
  range the way the machine arithmetic wraps (`wrap_long`).
* A C string is the `List Char` of its characters before the terminating NUL.
* A function that calls out (`printf`, `send`, `pthread_cancel`, `exit`) returns the list
  of the calls it makes, in order.
-/

namespace Ectpping

/-! ## Constants -/

/-- Modelled from the spec: `ECTP_PACKET_HDR_SZ` of libectp.h, which is missing from the
sources; the wire layout starts with `skip_count: 1 byte`. -/
def ECTP_PACKET_HDR_SZ : Nat := 1

/-- Modelled from the spec: `ECTP_MSG_FUNC_SZ` of libectp.h, which is missing from the
sources; every message starts with `type: 1 byte`. -/
def ECTP_MSG_FUNC_SZ : Nat := 1

/-- Modelled from the spec: `ECTP_FWDMSG_SZ` of libectp.h, which is missing from the
sources; a Forward message is `type: 1 byte, address: 6 bytes`. -/
def ECTP_FWDMSG_SZ : Nat := 7

/-- Modelled from the spec: `sizeof(struct ectp_reply_message)` of libectp.h, which is
missing from the sources; after its type a Reply message holds `receipt_token: 4 bytes`,
followed by the variable-length data. -/
def sizeof_ectp_reply_message : Nat := 4

/-- Modelled from the spec: the tag `ECTP_RPLYMSG` of libectp.h, which is missing from the
sources.  The spec names the two tags Reply and Forward and gives no numbers; the model
takes two different byte values. -/
def ECTP_RPLYMSG : Nat := 1

/-- Modelled from the spec: the tag `ECTP_FWDMSG` of libectp.h, which is missing from the
sources; see `ECTP_RPLYMSG`. -/
def ECTP_FWDMSG : Nat := 2

/-- `ETH_ALEN` of the system headers: octets in one hardware address. -/
def ETH_ALEN : Nat := 6

/-- `ETH_HLEN` of the system headers, equal to `sizeof(struct ether_header)`. -/
def ETH_HLEN : Nat := 14

/-- `sizeof(struct ether_header)`: destination, source, ethertype. -/
def sizeof_ether_header : Nat := 14

/-- `INT_MAX` of `limits.h`. -/
def INT_MAX : Int := 2147483647

/-- Width of `unsigned int`. -/
def UINT_MOD : Nat := 4294967296

/-- The value that a `long` of 64 bits holds after an addition or subtraction whose exact
result is `x`: `x` itself inside the range, and `x` reduced modulo 2^64 into the range
when the operation overflows (two's complement wrap-around). -/
def wrap_long (x : Int) : Int :=
  (x + 9223372036854775808) % 18446744073709551616 - 9223372036854775808

/-! ## Data -/

/-- `struct ether_addr`: six octets. -/
structure ether_addr where
  o0 : Nat
  o1 : Nat
  o2 : Nat
  o3 : Nat
  o4 : Nat
  o5 : Nat
deriving DecidableEq, Repr

/-- The six octets of an address in memory order. -/
def ether_addr.bytes (a : ether_addr) : List Nat :=
  [a.o0, a.o1, a.o2, a.o3, a.o4, a.o5]

/-- `enum ECTP_PKT_VALID`. -/
inductive ECTP_PKT_VALID where
  | GOOD
  | TOOSMALL
  | BADSKIPCOUNT
  | BADMSGTYPE
  | WRONGRCPTNUM
deriving DecidableEq, Repr

/-! ## Packet accessors (libectp) -/

/-- Modelled from the spec: `ectp_get_skipcount` of libectp, which is missing from the
sources; the skip count is the one-byte field at the start of the packet. -/
def ectp_get_skipcount (ectp_pkt : List Nat) : Nat :=
  ectp_pkt.getD 0 0

/-- Modelled from the spec: `ectp_skipc_basicchk_ok` of libectp, which is missing from the
sources.  Step 2 of the decoder: the skip count is bad when it is not a multiple of the
forward-message size or when header size + skip count + message-type size reaches the
packet length. -/
def ectp_skipc_basicchk_ok (skipcount ectp_pkt_size : Nat) : Bool :=
  if skipcount % ECTP_FWDMSG_SZ ≠ 0 then false
  else if ECTP_PACKET_HDR_SZ + skipcount + ECTP_MSG_FUNC_SZ ≥ ectp_pkt_size then false
  else true

/-- Modelled from the spec: `ectp_get_msg_ptr` of libectp, which is missing from the
sources; the message `skipcount` bytes after the packet header. -/
def ectp_get_msg_ptr (skipcount : Nat) (_ectp_pkt : List Nat) : Nat :=
  ECTP_PACKET_HDR_SZ + skipcount

/-- Modelled from the spec: `ectp_get_curr_msg_ptr` of libectp, which is missing from the
sources; the current message is at header size + skip count. -/
def ectp_get_curr_msg_ptr (ectp_pkt : List Nat) : Nat :=
  ectp_get_msg_ptr (ectp_get_skipcount ectp_pkt) ectp_pkt

/-- Modelled from the spec: `ectp_get_msg_type` of libectp, which is missing from the
sources; the one-byte tag at the start of a message. -/
def ectp_get_msg_type (ectp_pkt : List Nat) (ectp_msg : Nat) : Nat :=
  ectp_pkt.getD ectp_msg 0

/-- Modelled from the spec: `ectp_get_rplymsg_rcpt_num` of libectp, which is missing from
the sources; the four-byte receipt token after the tag of a Reply message.  The spec does
not fix a byte order; the model stores the least significant byte first. -/
def ectp_get_rplymsg_rcpt_num (ectp_pkt : List Nat) (ectp_msg : Nat) : Nat :=
  ectp_pkt.getD (ectp_msg + ECTP_MSG_FUNC_SZ) 0
    + 256 * ectp_pkt.getD (ectp_msg + ECTP_MSG_FUNC_SZ + 1) 0
    + 65536 * ectp_pkt.getD (ectp_msg + ECTP_MSG_FUNC_SZ + 2) 0
    + 16777216 * ectp_pkt.getD (ectp_msg + ECTP_MSG_FUNC_SZ + 3) 0

/-- Modelled from the spec: `ectp_get_rplymsg_data_ptr` of libectp, which is missing from
the sources; the data of a Reply message follows its tag and receipt token. -/
def ectp_get_rplymsg_data_ptr (ectp_msg : Nat) : Nat :=
  ectp_msg + ECTP_MSG_FUNC_SZ + sizeof_ectp_reply_message

/-- Modelled from the spec: `ectp_get_fwdaddr` of libectp, which is missing from the
sources; the six-byte address after the tag of a Forward message. -/
def ectp_get_fwdaddr (ectp_pkt : List Nat) (ectp_msg : Nat) : ether_addr :=
  { o0 := ectp_pkt.getD (ectp_msg + ECTP_MSG_FUNC_SZ) 0
    o1 := ectp_pkt.getD (ectp_msg + ECTP_MSG_FUNC_SZ + 1) 0
    o2 := ectp_pkt.getD (ectp_msg + ECTP_MSG_FUNC_SZ + 2) 0
    o3 := ectp_pkt.getD (ectp_msg + ECTP_MSG_FUNC_SZ + 3) 0
    o4 := ectp_pkt.getD (ectp_msg + ECTP_MSG_FUNC_SZ + 4) 0
    o5 := ectp_pkt.getD (ectp_msg + ECTP_MSG_FUNC_SZ + 5) 0 }

/-! ## `ectp_pkt_valid` -/

/-- `ectp_pkt_valid` (ectpping.c 1215-1260).  The packet is the buffer `ectp_pkt` with the
separate length `ectp_pkt_size`; the global `ectpping_pid` is a parameter; the unused
parameter `prog_parms` is left out.  The second component is the pair of out-parameters
`(*ectp_data, *ectp_data_size)`, written only on the accepting path: the offset of the
data in the packet and its size. -/
def ectp_pkt_valid (ectp_pkt : List Nat) (ectp_pkt_size : Nat) (ectpping_pid : Nat) :
    ECTP_PKT_VALID × Option (Nat × Nat) :=
  if ectp_pkt_size < ECTP_PACKET_HDR_SZ then (ECTP_PKT_VALID.TOOSMALL, none)
  else
    let looklen0 := ECTP_PACKET_HDR_SZ
    let skipcount := ectp_get_skipcount ectp_pkt
    if ectp_skipc_basicchk_ok skipcount ectp_pkt_size = false then
      (ECTP_PKT_VALID.BADSKIPCOUNT, none)
    else
      let looklen1 := looklen0 + (skipcount + ECTP_MSG_FUNC_SZ)
      if looklen1 ≥ ectp_pkt_size then (ECTP_PKT_VALID.TOOSMALL, none)
      else
        let curr_ectp_msg := ectp_get_curr_msg_ptr ectp_pkt
        if ectp_get_msg_type ectp_pkt curr_ectp_msg ≠ ECTP_RPLYMSG then
          (ECTP_PKT_VALID.BADMSGTYPE, none)
        else
          let looklen2 := looklen1 + sizeof_ectp_reply_message
          if looklen2 ≥ ectp_pkt_size then (ECTP_PKT_VALID.TOOSMALL, none)
          else if ectp_get_rplymsg_rcpt_num ectp_pkt curr_ectp_msg ≠ ectpping_pid then
            (ECTP_PKT_VALID.WRONGRCPTNUM, none)
          else
            (ECTP_PKT_VALID.GOOD,
              some (ectp_get_rplymsg_data_ptr curr_ectp_msg, ectp_pkt_size - looklen2))

/-! ## The encoder (libectp) -/

/-- Modelled from the spec: the four bytes of the receipt token that the missing encoder
stores in a Reply message, least significant first (the inverse of the read in
`ectp_get_rplymsg_rcpt_num`); each byte is reduced to eight bits. -/
def rcpt_num_bytes (rcpt_num : Nat) : List Nat :=
  [rcpt_num % 256, rcpt_num / 256 % 256, rcpt_num / 65536 % 256, rcpt_num / 16777216 % 256]

/-- Modelled from the spec: the bytes of the Forward messages that the missing encoder lays
out for a chain, one message per address, in order: the tag and then the six address
octets. -/
def fwdmsgs_bytes : List ether_addr → List Nat
  | [] => []
  | a :: rest => (ECTP_FWDMSG :: a.bytes) ++ fwdmsgs_bytes rest

/-- Modelled from the spec: `ectp_calc_packet_size` of libectp, which is missing from the
sources; the size of a packet with `num_fwdmsgs` Forward messages and one Reply message
with `data_size` bytes of data, by the wire layout. -/
def ectp_calc_packet_size (num_fwdmsgs data_size : Nat) : Nat :=
  ECTP_PACKET_HDR_SZ + num_fwdmsgs * ECTP_FWDMSG_SZ
    + (ECTP_MSG_FUNC_SZ + sizeof_ectp_reply_message) + data_size

/-- Modelled from the spec: the packet laid out by the encoder: the skip count, computed
as the chain length times the forward-message size and stored in its one-byte field, one
Forward message per chain entry in order, and one Reply message with the session token
and the payload. -/
def ectp_packet_bytes (chain : List ether_addr) (rcpt_num : Nat) (data : List Nat) :
    List Nat :=
  [chain.length * ECTP_FWDMSG_SZ % 256] ++ fwdmsgs_bytes chain
    ++ ([ECTP_RPLYMSG] ++ rcpt_num_bytes rcpt_num ++ data)

/-- Modelled from the spec: `ectp_build_packet` of libectp, which is missing from the
sources, with the nine arguments of its call in `build_ectp_frame`.  It is the `encode` of
the spec for the first `num_fwdaddrs` addresses of `fwdaddrs`, the token `rcpt_num` and
the first `data_size` bytes of `data`; the result is the content of `packet_buf`
afterwards.  The packet is written at the start of the buffer; when the buffer of
`packet_buf_size` bytes cannot hold it, the encoder fails and the buffer is unchanged.
The spec describes neither the first nor the last argument of the call (`0` and `0x00`
there); the model carries them and does not use them. -/
def ectp_build_packet (_first_arg : Nat) (fwdaddrs : List ether_addr) (num_fwdaddrs : Nat)
    (rcpt_num : Nat) (data : List Nat) (data_size : Nat) (packet_buf : List Nat)
    (packet_buf_size : Nat) (_last_arg : Nat) : List Nat :=
  let pkt := ectp_packet_bytes (fwdaddrs.take num_fwdaddrs) rcpt_num (data.take data_size)
  if pkt.length > packet_buf_size then packet_buf
  else pkt ++ packet_buf.drop pkt.length

/-! ## `build_ectp_frame` -/

/-- `struct program_parameters` (ectpping.c 47-60), without the interface name and
index. -/
structure program_parameters where
  srcmac : ether_addr
  dstmac : ether_addr
  ectp_user_data : List Nat
  ectp_user_data_size : Nat
  no_resolve : Bool
  zero_pkt_output : Bool
  interval_ms : Nat
  fwdaddrs : List ether_addr
  num_fwdaddrs : Nat

/-- `enum BUILD_ECTP_FRAME`. -/
inductive BUILD_ECTP_FRAME where
  | GOOD
  | BADBUFSIZE
  | NOMEM
deriving DecidableEq, Repr

/-- `build_ectp_eth_hdr` (ectpping.c 1042-1053): the fourteen bytes of `struct
ether_header`: destination, source, and `htons(ETHERTYPE_LOOPBACK)` = 0x90 0x00. -/
def build_ectp_eth_hdr (srcmac dstmac : ether_addr) : List Nat :=
  dstmac.bytes ++ srcmac.bytes ++ [144, 0]

/-- `build_ectp_frame` (ectpping.c 1056-1111).  `frame_buf` is the content of the
caller's buffer before the call, `malloc_ok` tells whether `malloc` succeeds, and the
global `ectpping_pid` is a parameter.  The result is the return code, the content of the
buffer afterwards, and the value stored in `*ectp_frame_len` (`none` when nothing is
stored). -/
def build_ectp_frame (prog_parms : program_parameters) (frame_buf : List Nat)
    (frame_buf_sz : Nat) (prog_data : List Nat) (prog_data_size : Nat)
    (ectpping_pid : Nat) (malloc_ok : Bool) :
    BUILD_ECTP_FRAME × List Nat × Option Nat :=
  if sizeof_ether_header > frame_buf_sz then (BUILD_ECTP_FRAME.BADBUFSIZE, frame_buf, none)
  else
    let frame_buf1 :=
      build_ectp_eth_hdr prog_parms.srcmac prog_parms.dstmac ++ frame_buf.drop ETH_HLEN
    let frame_payload_size := (prog_data_size + prog_parms.ectp_user_data_size) % UINT_MOD
    let ectp_pkt_len := ectp_calc_packet_size 1 frame_payload_size
    if ectp_pkt_len > frame_buf_sz - ETH_HLEN then
      (BUILD_ECTP_FRAME.BADBUFSIZE, frame_buf1, none)
    else if malloc_ok = false then (BUILD_ECTP_FRAME.NOMEM, frame_buf1, none)
    else
      let frame_payload :=
        prog_data.take prog_data_size
          ++ prog_parms.ectp_user_data.take prog_parms.ectp_user_data_size
      let num_fwdaddrs := if prog_parms.num_fwdaddrs ≠ 0 then prog_parms.num_fwdaddrs else 1
      let fwdaddrs :=
        if prog_parms.num_fwdaddrs ≠ 0 then prog_parms.fwdaddrs else [prog_parms.srcmac]
      let packet_buf :=
        ectp_build_packet 0 fwdaddrs num_fwdaddrs ectpping_pid frame_payload
          frame_payload_size (frame_buf1.drop ETH_HLEN) (frame_buf_sz - ETH_HLEN) 0
      (BUILD_ECTP_FRAME.GOOD, frame_buf1.take ETH_HLEN ++ packet_buf,
        some (ETH_HLEN + ectp_pkt_len))

/-! ## `print_ectp_src_rt` -/

/-- The loop of `print_ectp_src_rt` (ectpping.c 1322-1333), started at `skipcount`: the
addresses printed, in order.  One unit of fuel is one evaluation of the loop condition;
`none` when the fuel runs out before the loop ends. -/
def print_ectp_src_rt_loop : Nat → Nat → List Nat → Option (List ether_addr)
  | 0, _, _ => none
  | fuel + 1, skipcount, ectp_pkt =>
    let ectp_msg := ectp_get_msg_ptr skipcount ectp_pkt
    if ectp_get_msg_type ectp_pkt ectp_msg = ECTP_FWDMSG then
      (print_ectp_src_rt_loop fuel (skipcount + ECTP_FWDMSG_SZ) ectp_pkt).map
        (fun printed => ectp_get_fwdaddr ectp_pkt ectp_msg :: printed)
    else some []

/-- `print_ectp_src_rt` (ectpping.c 1315-1337): the forwarding addresses it prints, found
by walking the messages from skip count 0 while their tag is Forward.  The fuel is the
buffer length plus one, which always suffices (`print_ectp_src_rt_total`). -/
def print_ectp_src_rt (ectp_pkt : List Nat) : Option (List ether_addr) :=
  print_ectp_src_rt_loop (ectp_pkt.length + 1) 0 ectp_pkt

/-! ## Time values and statistics -/

/-- `struct timeval`. -/
structure timeval where
  tv_sec : Int
  tv_usec : Int
deriving DecidableEq, Repr

/-- A time value in microseconds. -/
def timeval.usecs (t : timeval) : Int :=
  t.tv_sec * 1000000 + t.tv_usec

/-- A time value is normalized when its microseconds field is in `[0, 1000000)`. -/
def timeval.normalized (t : timeval) : Prop :=
  0 ≤ t.tv_usec ∧ t.tv_usec < 1000000

instance (t : timeval) : Decidable t.normalized := by
  unfold timeval.normalized
  exact inferInstance

/-- The macro `timersub` of `sys/time.h`: component-wise difference, with a borrow of one
second when the microseconds difference is negative.  Each operation is one on `long`
fields and wraps at 64 bits. -/
def timersub (a b : timeval) : timeval :=
  let result : timeval :=
    { tv_sec := wrap_long (a.tv_sec - b.tv_sec), tv_usec := wrap_long (a.tv_usec - b.tv_usec) }
  if result.tv_usec < 0 then
    { tv_sec := wrap_long (result.tv_sec - 1), tv_usec := wrap_long (result.tv_usec + 1000000) }
  else result

/-- The macro `timeradd` of `sys/time.h`: component-wise sum, with a carry of one second
when the microseconds sum reaches 1000000.  Each operation is one on `long` fields and
wraps at 64 bits. -/
def timeradd (a b : timeval) : timeval :=
  let result : timeval :=
    { tv_sec := wrap_long (a.tv_sec + b.tv_sec), tv_usec := wrap_long (a.tv_usec + b.tv_usec) }
  if result.tv_usec ≥ 1000000 then
    { tv_sec := wrap_long (result.tv_sec + 1), tv_usec := wrap_long (result.tv_usec - 1000000) }
  else result

/-- `struct ectpping_payload` (ectpping.c 98-101). -/
structure ectpping_payload where
  seq_num : Nat
  tv : timeval
deriving DecidableEq, Repr

/-- The global counters and RTT statistics (ectpping.c 318-331). -/
structure Globals where
  txed_pkts : Nat
  rxed_pkts : Nat
  min_rtt : timeval
  max_rtt : timeval
  sum_rtts : timeval
deriving DecidableEq, Repr

/-- The initializers of the globals (ectpping.c 318-331). -/
def Globals.init : Globals :=
  { txed_pkts := 0
    rxed_pkts := 0
    min_rtt := { tv_sec := INT_MAX, tv_usec := INT_MAX }
    max_rtt := { tv_sec := 0, tv_usec := 0 }
    sum_rtts := { tv_sec := 0, tv_usec := 0 } }

/-- What the receive path writes to standard output. -/
inductive Out where
  | rxed_line (pkt_len : Nat) (srcmac : ether_addr) (seq_num : Nat) (tv_diff : timeval)
  | src_rt (fwdaddrs : Option (List ether_addr))
  | received_packet (srcmac : ether_addr) (pkt_len : Nat) (tv : timeval)
deriving DecidableEq, Repr

/-! ## `print_rxed_packet` -/

/-- The arguments of one call of `print_rxed_packet`.  `eping_payload` is the local of
that name after the `memcpy` from `ectp_data` (ectpping.c 1278): the probe payload as a
struct value, its layout in memory not being modelled. -/
structure rxed_packet_args where
  prog_parms : program_parameters
  pkt_arrived : timeval
  srcmac : ether_addr
  pkt_len : Nat
  ectp_pkt : List Nat
  eping_payload : ectpping_payload

/-- The RTT `tv_diff` of `print_rxed_packet` (ectpping.c 1279). -/
def rxed_packet_args.tv_diff (a : rxed_packet_args) : timeval :=
  timersub a.pkt_arrived a.eping_payload.tv

/-- `print_rxed_packet` (ectpping.c 1266-1312) on the globals `g`: the globals afterwards
and the output. -/
def print_rxed_packet (g : Globals) (a : rxed_packet_args) : Globals × List Out :=
  let tv_diff := a.tv_diff
  let sum_rtts := timeradd g.sum_rtts tv_diff
  let min_rtt :=
    if tv_diff.tv_sec < g.min_rtt.tv_sec ∨
        (tv_diff.tv_sec = g.min_rtt.tv_sec ∧ tv_diff.tv_usec < g.min_rtt.tv_usec) then tv_diff
    else g.min_rtt
  let max_rtt :=
    if tv_diff.tv_sec > g.max_rtt.tv_sec ∨
        (tv_diff.tv_sec = g.max_rtt.tv_sec ∧ tv_diff.tv_usec > g.max_rtt.tv_usec) then tv_diff
    else g.max_rtt
  let out :=
    if a.prog_parms.zero_pkt_output = false then
      Out.rxed_line a.pkt_len a.srcmac a.eping_payload.seq_num tv_diff ::
        (if ectp_get_skipcount a.ectp_pkt > 8 then [Out.src_rt (print_ectp_src_rt a.ectp_pkt)]
          else [])
    else []
  ({ g with sum_rtts := sum_rtts, min_rtt := min_rtt, max_rtt := max_rtt }, out)

/-- The globals after a sequence of calls of `print_rxed_packet`. -/
def print_rxed_packets (g : Globals) (calls : List rxed_packet_args) : Globals :=
  calls.foldl (fun st a => (print_rxed_packet st a).1) g

/-! ## `process_rxed_frames` -/

/-- What one `recvmsg` of the receive loop delivers: the buffer, the length, the
timestamp of the control message and the source address. -/
structure rxed_frame where
  buf : List Nat
  pkt_len : Nat
  tv : timeval
  srcmac : ether_addr

/-- One iteration of the loop of `process_rxed_frames` (ectpping.c 1356-1389): the frame
is received, its timestamp and source address are extracted and one line is printed.  The
iteration calls neither `ectp_pkt_valid` nor `print_rxed_packet` and assigns no global. -/
def process_rxed_frames_iter (g : Globals) (f : rxed_frame) : Globals × List Out :=
  (g, [Out.received_packet f.srcmac f.pkt_len f.tv])

/-- `process_rxed_frames` (ectpping.c 1343-1390) over the frames received so far: the
globals and the output after these iterations of its endless loop. -/
def process_rxed_frames (g : Globals) (frames : List rxed_frame) : Globals × List Out :=
  frames.foldl
    (fun st f => ((process_rxed_frames_iter st.1 f).1, st.2 ++ (process_rxed_frames_iter st.1 f).2))
    (g, [])

/-! ## The shutdown report of `sigint_hdlr` -/

/-- The average RTT fields printed by `sigint_hdlr` (ectpping.c 519-542): the seconds
field and the microseconds field of `avg` in `min/avg/max/total`, or `none` when the line
is not printed.  The operands are `long`, the division is the truncating division of C. -/
def sigint_hdlr_avg (g : Globals) : Option (Int × Int) :=
  if g.txed_pkts > 0 then
    if g.rxed_pkts > 0 then
      let sum_rtts_sec_avg := Int.tdiv (g.sum_rtts.tv_sec * 1000000) (g.rxed_pkts : Int)
      some (Int.tdiv g.sum_rtts.tv_sec (g.rxed_pkts : Int),
        if sum_rtts_sec_avg < 1000000 then
          Int.tdiv g.sum_rtts.tv_usec (g.rxed_pkts : Int) + sum_rtts_sec_avg
        else Int.tdiv g.sum_rtts.tv_usec (g.rxed_pkts : Int))
    else none
  else none

/-- The average RTT as the spec words it, `avg_rtt = sum_rtt / rxed`: the total in
microseconds divided by the number of replies, truncated to a whole microsecond, as a
seconds field and a microseconds field. -/
def avg_rtt_spec (sum_rtt : timeval) (rxed : Nat) : Int × Int :=
  (Int.tdiv (Int.tdiv sum_rtt.usecs (rxed : Int)) 1000000,
    Int.tmod (Int.tdiv sum_rtt.usecs (rxed : Int)) 1000000)

/-! ## `get_prog_opt_fwdaddrs` -/

/-- `enum GET_PROG_OPT_FWDADDRS`. -/
inductive GET_PROG_OPT_FWDADDRS where
  | GOOD
  | BAD
deriving DecidableEq, Repr

/-- `isspace` in the C locale: the space and the control characters 9 to 13. -/
def isspace (c : Char) : Bool :=
  c.toNat = 32 || (9 ≤ c.toNat && c.toNat ≤ 13)

/-- The strings that successive `%s` conversions of `sscanf` take from the rest of the
input: white space is skipped and every maximal run of other characters is one string.
`current` holds, in reverse, the characters of the run being read. -/
def sscanf_strings : List Char → List Char → List (List Char)
  | [], current => if current = [] then [] else [current.reverse]
  | c :: rest, current =>
    if isspace c then
      if current = [] then sscanf_strings rest []
      else current.reverse :: sscanf_strings rest []
    else sscanf_strings rest (c :: current)

/-- The loop of `get_prog_opt_fwdaddrs` (ectpping.c 879-889) over the remaining fields of
`fa_str`: `stored` holds the addresses written so far to `*fwdaddrs`, so `j` points behind
them and `k` is their number.  Each field is first given to `enet_pton` and, when that
fails, to `ether_hostton`. -/
def get_prog_opt_fwdaddrs_loop (enet_pton ether_hostton : List Char → Option ether_addr) :
    List (List Char) → List ether_addr → List ether_addr
  | [], stored => stored
  | field :: rest, stored =>
    match enet_pton field with
    | some a => get_prog_opt_fwdaddrs_loop enet_pton ether_hostton rest (stored ++ [a])
    | none =>
      match ether_hostton field with
      | some a => get_prog_opt_fwdaddrs_loop enet_pton ether_hostton rest (stored ++ [a])
      | none => get_prog_opt_fwdaddrs_loop enet_pton ether_hostton rest stored

/-- `get_prog_opt_fwdaddrs` (ectpping.c 858-895).  `fwdaddrs_str` is the C string without
its terminating NUL.  The parameters `enet_pton` (libenetaddr, not among the sources) and
`ether_hostton` (libc, reading `/etc/ethers`) give the address of a string that is a
hardware-address literal, respectively a known host name; `calloc_ok` tells whether
`calloc` succeeds.  The result is the return code with the out-parameters `*fwdaddrs` (its
first `*num_fwdaddrs` entries) and `*num_fwdaddrs`, which are written only on the GOOD
path.  The ten fields of `fa_str` are the first ten strings of the input, the unused ones
staying empty.  A string of 50 or more characters does not fit its field
`char fa_str[i][50]`, and `sscanf` then writes past the field; that execution is not
modelled and the result is `none`. -/
def get_prog_opt_fwdaddrs (enet_pton ether_hostton : List Char → Option ether_addr)
    (calloc_ok : Bool) (fwdaddrs_str : List Char) :
    Option (GET_PROG_OPT_FWDADDRS × Option (List ether_addr × Nat)) :=
  if calloc_ok = false then some (GET_PROG_OPT_FWDADDRS.BAD, none)
  else
    let scanned := (sscanf_strings fwdaddrs_str []).take 10
    if scanned.any (fun s => decide (50 ≤ s.length)) then none
    else
      let fa_str := scanned ++ List.replicate (10 - scanned.length) []
      let fwdaddrs := get_prog_opt_fwdaddrs_loop enet_pton ether_hostton fa_str []
      some (GET_PROG_OPT_FWDADDRS.GOOD, some (fwdaddrs, fwdaddrs.length))

/-! ## `sigint_hdlr` -/

/-- The two global thread handles (ectpping.c 311-312). -/
inductive thread_hdl where
  | tx_thread_hdl
  | rx_thread_hdl
deriving DecidableEq, Repr

/-- Which figure follows the packet counts in the report; the figure itself is a `double`
and is not modelled. -/
inductive loss_figure where
  | packet_loss
  | packet_increase
deriving DecidableEq, Repr

/-- What `sigint_hdlr` does, one constructor per call it makes.  The three `printf` calls
of the statistics heading are one action, and so are the calls that print the line of the
packet counts. -/
inductive Action where
  | pthread_cancel (hdl : thread_hdl)
  | usleep (usec : Nat)
  | free_fwdaddrs
  | putchar_newline
  | fflush
  | statistics_heading (dstmac : ether_addr) (resolve : Bool)
  | packets_line (txed_pkts rxed_pkts : Nat) (figure : Option loss_figure)
  | round_trip_line (min_rtt : timeval) (avg : Int × Int) (max_rtt sum_rtts : timeval)
  | exit (status : Nat)
deriving DecidableEq, Repr

/-- `EXIT_SUCCESS` of `stdlib.h`. -/
def EXIT_SUCCESS : Nat := 0

/-- `sigint_hdlr` (ectpping.c 488-551) as the sequence of the actions it performs, for the
globals `g` and `prog_parms`; `fwdaddrs_not_null` tells whether `prog_parms.fwdaddrs` is
not `NULL`. -/
def sigint_hdlr (g : Globals) (prog_parms : program_parameters) (fwdaddrs_not_null : Bool) :
    List Action :=
  [Action.pthread_cancel thread_hdl.tx_thread_hdl]
    ++ (if g.rxed_pkts ≠ g.txed_pkts then [Action.usleep 100000] else [])
    ++ [Action.pthread_cancel thread_hdl.rx_thread_hdl]
    ++ (if fwdaddrs_not_null then [Action.free_fwdaddrs] else [])
    ++ [Action.putchar_newline, Action.fflush,
        Action.statistics_heading prog_parms.dstmac (!prog_parms.no_resolve)]
    ++ (if g.txed_pkts > 0 then
          [Action.packets_line g.txed_pkts g.rxed_pkts
            (some (if g.rxed_pkts ≤ g.txed_pkts then loss_figure.packet_loss
              else loss_figure.packet_increase))]
            ++ (match sigint_hdlr_avg g with
                | some avg => [Action.round_trip_line g.min_rtt avg g.max_rtt g.sum_rtts]
                | none => [])
        else [Action.packets_line g.txed_pkts g.rxed_pkts none, Action.putchar_newline])
    ++ [Action.fflush, Action.exit EXIT_SUCCESS]

/-- The actions that print a part of the statistics report. -/
def Action.is_report : Action → Bool
  | Action.statistics_heading _ _ => true
  | Action.packets_line _ _ _ => true
  | Action.round_trip_line _ _ _ _ => true
  | _ => false

/-- The thread cancellations. -/
def Action.is_cancel : Action → Bool
  | Action.pthread_cancel _ => true
  | _ => false

/-- The calls of `exit`. -/
def Action.is_exit : Action → Bool
  | Action.exit _ => true
  | _ => false

/-! ## `tx_thread` -/

/-- `sizeof(struct ectpping_payload)` (ectpping.c 98-101) where `long` has 64 bits: four
bytes of `seq_num`, four of padding and sixteen of `struct timeval`. -/
def sizeof_ectpping_payload : Nat := 24

/-- The locals of `tx_thread` that live across the iterations of its loop
(ectpping.c 1119-1123). -/
structure tx_thread_locals where
  tx_frame_buf : List Nat
  ectp_frame_len : Nat
  eping_payload : ectpping_payload

/-- What one iteration of the loop of `tx_thread` takes from its environment: the time
that `gettimeofday` stores, the bytes of `eping_payload` in memory after that store, and
whether `malloc` succeeds in `build_ectp_frame`. -/
structure tx_tick where
  now : timeval
  eping_payload_bytes : List Nat
  malloc_ok : Bool

/-- What `tx_thread` does in one iteration: the calls of `send`, `printf` and `usleep`. -/
inductive TxAction where
  | send (buf : List Nat) (len : Nat)
  | sending_packet_line (seq_num : Nat) (tv : timeval)
  | usleep (usec : Nat)
deriving DecidableEq, Repr

/-- One iteration of the loop of `tx_thread` (ectpping.c 1125-1144): the globals and the
locals afterwards and the actions performed.  The return code of `build_ectp_frame` is not
looked at; `ectp_frame_len` keeps its old value when `build_ectp_frame` stores none. -/
def tx_thread_iter (prog_parms : program_parameters) (ectpping_pid : Nat) (g : Globals)
    (l : tx_thread_locals) (t : tx_tick) : Globals × tx_thread_locals × List TxAction :=
  let eping_payload : ectpping_payload := { l.eping_payload with tv := t.now }
  let built :=
    build_ectp_frame prog_parms l.tx_frame_buf 65535 t.eping_payload_bytes
      sizeof_ectpping_payload ectpping_pid t.malloc_ok
  let tx_frame_buf := built.2.1
  let ectp_frame_len :=
    match built.2.2 with
    | some len => len
    | none => l.ectp_frame_len
  ({ g with txed_pkts := (g.txed_pkts + 1) % UINT_MOD },
    { tx_frame_buf := tx_frame_buf
      ectp_frame_len := ectp_frame_len
      eping_payload := { eping_payload with seq_num := (eping_payload.seq_num + 1) % UINT_MOD } },
    [TxAction.send tx_frame_buf ectp_frame_len,
      TxAction.sending_packet_line eping_payload.seq_num eping_payload.tv,
      TxAction.usleep (prog_parms.interval_ms * 1000 % UINT_MOD)])

/-! ## The read of the probe payload in `print_rxed_packet` -/

/-- The bytes of the packet that the `memcpy` of `print_rxed_packet` (ectpping.c 1278)
reads: from the offset `ectp_data` up to, not including, the returned offset. -/
def print_rxed_packet_memcpy_end (ectp_data : Nat) : Nat :=
  ectp_data + sizeof_ectpping_payload

/-! ## Auxiliary definitions for the theorems -/

/-- The statistics seen as a summary of the RTT samples recorded so far: `min_rtt` is the
initial sentinel or a smallest sample, `max_rtt` is the initial zero or a largest sample,
and `sum_rtts` is the normalized, non-negative sum of the samples. -/
def rtt_stats_inv (g : Globals) (seen : List timeval) : Prop :=
  ((seen = [] ∧ g.min_rtt = { tv_sec := INT_MAX, tv_usec := INT_MAX }) ∨
      (g.min_rtt ∈ seen ∧ ∀ s ∈ seen, g.min_rtt.usecs ≤ s.usecs)) ∧
    ((seen = [] ∧ g.max_rtt = { tv_sec := 0, tv_usec := 0 }) ∨
      (g.max_rtt ∈ seen ∧ ∀ s ∈ seen, s.usecs ≤ g.max_rtt.usecs)) ∧
    g.sum_rtts.normalized ∧ g.sum_rtts.usecs = (seen.map timeval.usecs).sum ∧
    0 ≤ g.sum_rtts.tv_sec

/-- The address that one iteration of the loop of `get_prog_opt_fwdaddrs` stores for a
field: that of the literal when `enet_pton` succeeds, else that of the host name when
`ether_hostton` succeeds, else none. -/
def fwdaddr_of_string (enet_pton ether_hostton : List Char → Option ether_addr)
    (field : List Char) : Option ether_addr :=
  match enet_pton field with
  | some a => some a
  | none => ether_hostton field

/-- An `enet_pton` that knows the one literal `00:11:22:33:44:55`. -/
def example_enet_pton (s : List Char) : Option ether_addr :=
  if s = "00:11:22:33:44:55".toList then some ⟨0, 17, 34, 51, 68, 85⟩ else none

/-- An `ether_hostton` for an empty `/etc/ethers`: no name resolves. -/
def example_ether_hostton (_s : List Char) : Option ether_addr :=
  none

/-- An `ether_hostton` that resolves every string, the empty one included, to one
address. -/
def example_ether_hostton_any (_s : List Char) : Option ether_addr :=
  some ⟨2, 0, 0, 0, 0, 9⟩

/-- A call of `print_rxed_packet` whose RTT is `arrived` minus the departure time 10 s. -/
def example_rxed_call (arrived : timeval) : rxed_packet_args :=
  { prog_parms :=
      { srcmac := ⟨2, 0, 0, 0, 0, 1⟩
        dstmac := ⟨207, 0, 0, 0, 0, 0⟩
        ectp_user_data := []
        ectp_user_data_size := 0
        no_resolve := false
        zero_pkt_output := false
        interval_ms := 1000
        fwdaddrs := []
        num_fwdaddrs := 0 }
    pkt_arrived := arrived
    srcmac := ⟨0, 17, 34, 51, 68, 85⟩
    pkt_len := 28
    ectp_pkt := [7, 2, 2, 0, 0, 0, 0, 1, 1, 210, 4, 0, 0, 7]
    eping_payload := { seq_num := 0, tv := { tv_sec := 10, tv_usec := 0 } } }

/-- A call of `print_rxed_packet` for a frame that arrived at `arrived` and whose payload
holds the departure time `departed`. -/
def example_rxed_call_departed (arrived departed : timeval) : rxed_packet_args :=
  { example_rxed_call arrived with eping_payload := { seq_num := 0, tv := departed } }

/-- A call of `print_rxed_packet` for an accepted Reply behind two Forward messages: the
packet of 21 bytes with skip count 14, token 1234 and one byte of data. -/
def example_rxed_call_two_hops : rxed_packet_args :=
  { example_rxed_call { tv_sec := 10, tv_usec := 5000 } with
    pkt_len := 35
    ectp_pkt := [14, 2, 0, 17, 34, 51, 68, 85, 2, 2, 0, 0, 0, 0, 1, 1, 210, 4, 0, 0, 7] }

/-- Example configuration: the chain of two forwarding addresses, no user data. -/
def example_parms_two_hops : program_parameters :=
  { srcmac := ⟨2, 0, 0, 0, 0, 1⟩
    dstmac := ⟨207, 0, 0, 0, 0, 0⟩
    ectp_user_data := []
    ectp_user_data_size := 0
    no_resolve := false
    zero_pkt_output := false
    interval_ms := 1000
    fwdaddrs := [⟨0, 17, 34, 51, 68, 85⟩, ⟨2, 0, 0, 0, 0, 1⟩]
    num_fwdaddrs := 2 }

/-- Example configuration: no forward chain configured, no user data. -/
def example_parms_no_chain : program_parameters :=
  { srcmac := ⟨2, 0, 0, 0, 0, 1⟩
    dstmac := ⟨207, 0, 0, 0, 0, 0⟩
    ectp_user_data := []
    ectp_user_data_size := 0
    no_resolve := false
    zero_pkt_output := false
    interval_ms := 1000
    fwdaddrs := []
    num_fwdaddrs := 0 }

/-- A received frame: the frame that `build_ectp_frame` builds for the sender alone, token
1234 and the payload `[7]`, with its 28 bytes. -/
def example_reply_frame : rxed_frame :=
  { buf := (build_ectp_frame example_parms_no_chain (List.replicate 64 0) 64 [7] 1 1234 true).2.1
    pkt_len := 28
    tv := { tv_sec := 10, tv_usec := 5000 }
    srcmac := ⟨0, 17, 34, 51, 68, 85⟩ }

/-! ## Theorems: `ectp_pkt_valid` -/

/-- The skip-count check passes exactly for a multiple of the forward-message size that
leaves the message type inside the packet. -/
theorem ectp_skipc_basicchk_ok_iff (skipcount ectp_pkt_size : Nat) :
    ectp_skipc_basicchk_ok skipcount ectp_pkt_size = true ↔
      skipcount % ECTP_FWDMSG_SZ = 0 ∧
        ECTP_PACKET_HDR_SZ + skipcount + ECTP_MSG_FUNC_SZ < ectp_pkt_size := by
  unfold ectp_skipc_basicchk_ok
  by_cases h1 : skipcount % ECTP_FWDMSG_SZ = 0
  · by_cases h2 : ECTP_PACKET_HDR_SZ + skipcount + ECTP_MSG_FUNC_SZ ≥ ectp_pkt_size
    · simp [h1, h2]
    · simp [h1, h2]
      omega
  · simp [h1]

/-- C4: an input shorter than the minimum packet header size is answered with TOOSMALL
and no payload, whatever the buffer holds and whatever the expected token is. -/
theorem ectp_pkt_valid_short_input (ectp_pkt : List Nat) (ectp_pkt_size ectpping_pid : Nat)
    (hshort : ectp_pkt_size < ECTP_PACKET_HDR_SZ) :
    ectp_pkt_valid ectp_pkt ectp_pkt_size ectpping_pid = (ECTP_PKT_VALID.TOOSMALL, none) := by
  unfold ectp_pkt_valid
  simp [hshort]

/-- Witness of C4: a buffer of three bytes announced with length 0. -/
theorem ectp_pkt_valid_short_input_witness :
    (0 : Nat) < ECTP_PACKET_HDR_SZ ∧
      ectp_pkt_valid [7, 1, 9] 0 1234 = (ECTP_PKT_VALID.TOOSMALL, none) :=
  ⟨by decide, ectp_pkt_valid_short_input [7, 1, 9] 0 1234 (by decide)⟩

/-- C2: a packet of at least the header size whose skip count is not a multiple of the
forward-message size, or whose skip count puts header size + skip count + message-type
size at or beyond the packet length, is answered with BADSKIPCOUNT. -/
theorem ectp_pkt_valid_bad_skipcount (ectp_pkt : List Nat) (ectp_pkt_size ectpping_pid : Nat)
    (hsize : ECTP_PACKET_HDR_SZ ≤ ectp_pkt_size)
    (hbad : ectp_get_skipcount ectp_pkt % ECTP_FWDMSG_SZ ≠ 0 ∨
      ECTP_PACKET_HDR_SZ + ectp_get_skipcount ectp_pkt + ECTP_MSG_FUNC_SZ ≥ ectp_pkt_size) :
    ectp_pkt_valid ectp_pkt ectp_pkt_size ectpping_pid
      = (ECTP_PKT_VALID.BADSKIPCOUNT, none) := by
  have hchk : ectp_skipc_basicchk_ok (ectp_get_skipcount ectp_pkt) ectp_pkt_size = false := by
    cases hc : ectp_skipc_basicchk_ok (ectp_get_skipcount ectp_pkt) ectp_pkt_size with
    | false => rfl
    | true =>
      have h := (ectp_skipc_basicchk_ok_iff _ _).mp hc
      rcases hbad with hb | hb
      · exact absurd h.1 hb
      · omega
  have hnot : ¬ ectp_pkt_size < ECTP_PACKET_HDR_SZ := by omega
  unfold ectp_pkt_valid
  simp [hnot, hchk]

/-- Witness of C2: skip count 7 in a packet of 9 bytes, where 1 + 7 + 1 reaches the
length. -/
theorem ectp_pkt_valid_bad_skipcount_witness :
    ECTP_PACKET_HDR_SZ ≤ 9 ∧
      ectp_pkt_valid [7, 2, 0, 17, 34, 51, 68, 85, 1] 9 1234
        = (ECTP_PKT_VALID.BADSKIPCOUNT, none) :=
  ⟨by decide,
    ectp_pkt_valid_bad_skipcount [7, 2, 0, 17, 34, 51, 68, 85, 1] 9 1234 (by decide)
      (Or.inr (by decide))⟩

/-- C5: a packet that passes the length check and the skip-count check and whose current
message, at header size + skip count, has a tag other than Reply is answered with
BADMSGTYPE, whatever the bytes at the token position and the expected token are. -/
theorem ectp_pkt_valid_bad_msgtype (ectp_pkt : List Nat) (ectp_pkt_size ectpping_pid : Nat)
    (hsize : ECTP_PACKET_HDR_SZ ≤ ectp_pkt_size)
    (hskip : ectp_skipc_basicchk_ok (ectp_get_skipcount ectp_pkt) ectp_pkt_size = true)
    (htag : ectp_get_msg_type ectp_pkt (ECTP_PACKET_HDR_SZ + ectp_get_skipcount ectp_pkt)
      ≠ ECTP_RPLYMSG) :
    ectp_pkt_valid ectp_pkt ectp_pkt_size ectpping_pid
      = (ECTP_PKT_VALID.BADMSGTYPE, none) := by
  have hlook := ((ectp_skipc_basicchk_ok_iff _ _).mp hskip).2
  have hnot : ¬ ectp_pkt_size < ECTP_PACKET_HDR_SZ := by omega
  have hnot2 : ¬ ECTP_PACKET_HDR_SZ + (ectp_get_skipcount ectp_pkt + ECTP_MSG_FUNC_SZ)
      ≥ ectp_pkt_size := by omega
  have htag2 : ectp_get_msg_type ectp_pkt (ectp_get_curr_msg_ptr ectp_pkt) ≠ ECTP_RPLYMSG := by
    simpa [ectp_get_curr_msg_ptr, ectp_get_msg_ptr] using htag
  unfold ectp_pkt_valid
  dsimp only
  rw [if_neg hnot, if_neg (by simp [hskip]), if_neg hnot2, if_pos htag2]

/-- Witness of C5: the current message is a Forward message; its address bytes stand
where a Reply would hold the token 1234, which is also the expected token. -/
theorem ectp_pkt_valid_bad_msgtype_witness :
    ectp_pkt_valid [0, 2, 210, 4, 0, 0, 68, 85, 1, 210, 4, 0, 0, 9] 14 1234
      = (ECTP_PKT_VALID.BADMSGTYPE, none) :=
  ectp_pkt_valid_bad_msgtype [0, 2, 210, 4, 0, 0, 68, 85, 1, 210, 4, 0, 0, 9] 14 1234
    (by decide) (by decide) (by decide)

/-- C3, as amended: a packet that is long enough, has a valid skip count, whose current
message is a Reply and whose Reply header is followed by at least one byte of data (header
size + skip count + message-type size + Reply header size is below the packet length) is
answered with WRONGRCPTNUM and no payload for every expected token other than the receipt
token of the Reply. -/
theorem ectp_pkt_valid_wrong_rcpt_num (ectp_pkt : List Nat) (ectp_pkt_size ectpping_pid : Nat)
    (hsize : ECTP_PACKET_HDR_SZ ≤ ectp_pkt_size)
    (hskip : ectp_skipc_basicchk_ok (ectp_get_skipcount ectp_pkt) ectp_pkt_size = true)
    (htag : ectp_get_msg_type ectp_pkt (ECTP_PACKET_HDR_SZ + ectp_get_skipcount ectp_pkt)
      = ECTP_RPLYMSG)
    (hfits : ECTP_PACKET_HDR_SZ + ectp_get_skipcount ectp_pkt + ECTP_MSG_FUNC_SZ
      + sizeof_ectp_reply_message < ectp_pkt_size)
    (htoken : ectp_get_rplymsg_rcpt_num ectp_pkt
      (ECTP_PACKET_HDR_SZ + ectp_get_skipcount ectp_pkt) ≠ ectpping_pid) :
    ectp_pkt_valid ectp_pkt ectp_pkt_size ectpping_pid
      = (ECTP_PKT_VALID.WRONGRCPTNUM, none) := by
  have hnot : ¬ ectp_pkt_size < ECTP_PACKET_HDR_SZ := by omega
  have hnot2 : ¬ ECTP_PACKET_HDR_SZ + (ectp_get_skipcount ectp_pkt + ECTP_MSG_FUNC_SZ)
      ≥ ectp_pkt_size := by omega
  have hnot3 : ¬ ECTP_PACKET_HDR_SZ + (ectp_get_skipcount ectp_pkt + ECTP_MSG_FUNC_SZ)
      + sizeof_ectp_reply_message ≥ ectp_pkt_size := by omega
  have htag2 : ectp_get_msg_type ectp_pkt (ectp_get_curr_msg_ptr ectp_pkt) = ECTP_RPLYMSG := by
    simpa [ectp_get_curr_msg_ptr, ectp_get_msg_ptr] using htag
  have htoken2 : ectp_get_rplymsg_rcpt_num ectp_pkt (ectp_get_curr_msg_ptr ectp_pkt)
      ≠ ectpping_pid := by
    simpa [ectp_get_curr_msg_ptr, ectp_get_msg_ptr] using htoken
  unfold ectp_pkt_valid
  dsimp only
  rw [if_neg hnot, if_neg (by simp [hskip]), if_neg hnot2, if_neg (not_not.mpr htag2),
    if_neg hnot3, if_pos htoken2]

/-- Witness of C3 as amended: a Reply with token 7 and one byte of data, validated against
the expected token 9. -/
theorem ectp_pkt_valid_wrong_rcpt_num_witness :
    ectp_pkt_valid [0, 1, 7, 0, 0, 0, 42] 7 9 = (ECTP_PKT_VALID.WRONGRCPTNUM, none) :=
  ectp_pkt_valid_wrong_rcpt_num [0, 1, 7, 0, 0, 0, 42] 7 9
    (by decide) (by decide) (by decide) (by decide) (by decide)

/-- Counterexample to C3 as stated: the six-byte packet with skip count 0 and a Reply with
token 7 and no data is long enough, has a valid skip count, its current message is a Reply
and the Reply header fits in the packet (1 + 0 + 1 + 4 = 6); validated against the
expected token 9 it is answered with TOOSMALL, not WRONGRCPTNUM. -/
theorem ectp_pkt_valid_wrong_rcpt_num_counterexample :
    ECTP_PACKET_HDR_SZ ≤ 6 ∧
      ectp_skipc_basicchk_ok (ectp_get_skipcount [0, 1, 7, 0, 0, 0]) 6 = true ∧
      ectp_get_msg_type [0, 1, 7, 0, 0, 0]
        (ECTP_PACKET_HDR_SZ + ectp_get_skipcount [0, 1, 7, 0, 0, 0]) = ECTP_RPLYMSG ∧
      ECTP_PACKET_HDR_SZ + ectp_get_skipcount [0, 1, 7, 0, 0, 0] + ECTP_MSG_FUNC_SZ
        + sizeof_ectp_reply_message ≤ 6 ∧
      ectp_get_rplymsg_rcpt_num [0, 1, 7, 0, 0, 0]
        (ECTP_PACKET_HDR_SZ + ectp_get_skipcount [0, 1, 7, 0, 0, 0]) = 7 ∧
      ectp_pkt_valid [0, 1, 7, 0, 0, 0] 6 9 = (ECTP_PKT_VALID.TOOSMALL, none) ∧
      (ectp_pkt_valid [0, 1, 7, 0, 0, 0] 6 9).1 ≠ ECTP_PKT_VALID.WRONGRCPTNUM := by
  decide

/-! ## Theorems: the encoder and the round trip -/

/-- A read past a prefix of a buffer is a read in the rest of the buffer. -/
theorem getD_append_add (pre l : List Nat) (k : Nat) :
    (pre ++ l).getD (pre.length + k) 0 = l.getD k 0 := by
  rw [List.getD_append_right _ _ _ _ (by omega)]
  congr 1
  omega

/-- Every Forward message takes `ECTP_FWDMSG_SZ` bytes. -/
theorem fwdmsgs_bytes_length (chain : List ether_addr) :
    (fwdmsgs_bytes chain).length = chain.length * ECTP_FWDMSG_SZ := by
  induction chain with
  | nil => simp [fwdmsgs_bytes]
  | cons a rest ih =>
    simp only [fwdmsgs_bytes, List.length_append, List.length_cons, ih, ether_addr.bytes,
      List.length_nil, ECTP_FWDMSG_SZ]
    omega

/-- The encoded packet has the size that `ectp_calc_packet_size` computes. -/
theorem ectp_packet_bytes_length (chain : List ether_addr) (rcpt_num : Nat) (data : List Nat) :
    (ectp_packet_bytes chain rcpt_num data).length
      = ectp_calc_packet_size chain.length data.length := by
  simp only [ectp_packet_bytes, List.length_append, List.length_cons, List.length_nil,
    fwdmsgs_bytes_length, rcpt_num_bytes, ectp_calc_packet_size, ECTP_PACKET_HDR_SZ,
    ECTP_MSG_FUNC_SZ, sizeof_ectp_reply_message]
  omega

/-- The four token bytes read back give the token, for a token of 32 bits. -/
theorem rcpt_num_bytes_read (rcpt_num : Nat) (h : rcpt_num < 4294967296) :
    rcpt_num % 256 + 256 * (rcpt_num / 256 % 256) + 65536 * (rcpt_num / 65536 % 256)
      + 16777216 * (rcpt_num / 16777216 % 256) = rcpt_num := by
  omega

/-- The walk of `print_ectp_src_rt` over the Forward messages of a chain that are followed
by a Reply tag lists the chain. -/
theorem print_ectp_src_rt_loop_chain (chain : List ether_addr) :
    ∀ (pre tail : List Nat) (fuel skipcount : Nat),
      pre.length = ECTP_PACKET_HDR_SZ + skipcount → chain.length < fuel →
      print_ectp_src_rt_loop fuel skipcount
        (pre ++ (fwdmsgs_bytes chain ++ ECTP_RPLYMSG :: tail)) = some chain := by
  induction chain with
  | nil =>
    intro pre tail fuel skipcount hpre hfuel
    obtain ⟨f, rfl⟩ : ∃ f, fuel = f + 1 := ⟨fuel - 1, by simp at hfuel; omega⟩
    have hread : (pre ++ (fwdmsgs_bytes [] ++ ECTP_RPLYMSG :: tail)).getD
        (ECTP_PACKET_HDR_SZ + skipcount) 0 = ECTP_RPLYMSG := by
      have := getD_append_add pre (fwdmsgs_bytes [] ++ ECTP_RPLYMSG :: tail) 0
      rw [Nat.add_zero, hpre] at this
      rw [this]
      rfl
    simp only [print_ectp_src_rt_loop, ectp_get_msg_ptr, ectp_get_msg_type]
    rw [hread, if_neg (by decide)]
  | cons a rest ih =>
    intro pre tail fuel skipcount hpre hfuel
    obtain ⟨f, rfl⟩ : ∃ f, fuel = f + 1 := ⟨fuel - 1, by simp at hfuel; omega⟩
    have hbuf : pre ++ (fwdmsgs_bytes (a :: rest) ++ ECTP_RPLYMSG :: tail)
        = pre ++ (ECTP_FWDMSG :: a.o0 :: a.o1 :: a.o2 :: a.o3 :: a.o4 :: a.o5 ::
            (fwdmsgs_bytes rest ++ ECTP_RPLYMSG :: tail)) := by
      simp [fwdmsgs_bytes, ether_addr.bytes]
    have hrd : ∀ j k, j = ECTP_PACKET_HDR_SZ + skipcount + k →
        (pre ++ (ECTP_FWDMSG :: a.o0 :: a.o1 :: a.o2 :: a.o3 :: a.o4 :: a.o5 ::
          (fwdmsgs_bytes rest ++ ECTP_RPLYMSG :: tail))).getD j 0
        = (ECTP_FWDMSG :: a.o0 :: a.o1 :: a.o2 :: a.o3 :: a.o4 :: a.o5 ::
            (fwdmsgs_bytes rest ++ ECTP_RPLYMSG :: tail)).getD k 0 := by
      intro j k hj
      rw [hj, ← hpre]
      exact getD_append_add _ _ k
    have hnext : pre ++ (ECTP_FWDMSG :: a.o0 :: a.o1 :: a.o2 :: a.o3 :: a.o4 :: a.o5 ::
        (fwdmsgs_bytes rest ++ ECTP_RPLYMSG :: tail))
        = (pre ++ [ECTP_FWDMSG, a.o0, a.o1, a.o2, a.o3, a.o4, a.o5])
            ++ (fwdmsgs_bytes rest ++ ECTP_RPLYMSG :: tail) := by
      simp
    have hrec := ih (pre ++ [ECTP_FWDMSG, a.o0, a.o1, a.o2, a.o3, a.o4, a.o5]) tail f
      (skipcount + ECTP_FWDMSG_SZ)
      (by simp [hpre, ECTP_FWDMSG_SZ]; omega) (by simp at hfuel; omega)
    have e : ECTP_MSG_FUNC_SZ = 1 := rfl
    rw [hbuf]
    simp only [print_ectp_src_rt_loop, ectp_get_msg_ptr, ectp_get_msg_type, ectp_get_fwdaddr]
    rw [hrd (ECTP_PACKET_HDR_SZ + skipcount) 0 rfl,
      hrd (ECTP_PACKET_HDR_SZ + skipcount + ECTP_MSG_FUNC_SZ) 1 (by omega),
      hrd (ECTP_PACKET_HDR_SZ + skipcount + ECTP_MSG_FUNC_SZ + 1) 2 (by omega),
      hrd (ECTP_PACKET_HDR_SZ + skipcount + ECTP_MSG_FUNC_SZ + 2) 3 (by omega),
      hrd (ECTP_PACKET_HDR_SZ + skipcount + ECTP_MSG_FUNC_SZ + 3) 4 (by omega),
      hrd (ECTP_PACKET_HDR_SZ + skipcount + ECTP_MSG_FUNC_SZ + 4) 5 (by omega),
      hrd (ECTP_PACKET_HDR_SZ + skipcount + ECTP_MSG_FUNC_SZ + 5) 6 (by omega)]
    rw [hnext, hrec]
    rfl

/-- The walk of `print_ectp_src_rt` ends within the fuel it is given: it leaves the buffer
after at most as many steps as the buffer has bytes, and a tag read outside the buffer is
not the Forward tag. -/
theorem print_ectp_src_rt_loop_total (ectp_pkt : List Nat) :
    ∀ (fuel skipcount : Nat), ectp_pkt.length ≤ fuel + skipcount + 1 →
      (print_ectp_src_rt_loop (fuel + 1) skipcount ectp_pkt).isSome = true := by
  intro fuel
  induction fuel with
  | zero =>
    intro skipcount hlen
    have hread : ectp_pkt.getD (ECTP_PACKET_HDR_SZ + skipcount) 0 = 0 := by
      apply List.getD_eq_default
      have e : ECTP_PACKET_HDR_SZ = 1 := rfl
      omega
    simp only [print_ectp_src_rt_loop, ectp_get_msg_ptr, ectp_get_msg_type]
    rw [hread, if_neg (by decide)]
    rfl
  | succ f ih =>
    intro skipcount hlen
    have hrec := ih (skipcount + ECTP_FWDMSG_SZ) (by
      have e : ECTP_FWDMSG_SZ = 7 := rfl
      omega)
    rw [print_ectp_src_rt_loop]
    split
    · rw [Option.isSome_map']
      exact hrec
    · rfl

/-- The walk of `print_ectp_src_rt` always ends with a list of addresses. -/
theorem print_ectp_src_rt_total (ectp_pkt : List Nat) :
    (print_ectp_src_rt ectp_pkt).isSome = true :=
  print_ectp_src_rt_loop_total ectp_pkt ectp_pkt.length 0 (by omega)

/-- The receive-side view of an encoded packet at the start of a buffer: with a chain of
at most 36 addresses, a token of 32 bits and a non-empty payload, `ectp_pkt_valid` accepts
the packet at its encoded size and hands back the payload bytes, and the walk of
`print_ectp_src_rt` lists the chain. -/
theorem ectp_packet_bytes_decode (chain : List ether_addr) (rcpt_num : Nat) (data rest : List Nat)
    (hchain : chain.length ≤ 36) (htoken : rcpt_num < 4294967296) (hdata : data ≠ []) :
    ectp_pkt_valid (ectp_packet_bytes chain rcpt_num data ++ rest)
        (ectp_calc_packet_size chain.length data.length) rcpt_num
      = (ECTP_PKT_VALID.GOOD,
          some (ectp_calc_packet_size chain.length 0, data.length)) ∧
    ((ectp_packet_bytes chain rcpt_num data ++ rest).drop
        (ectp_calc_packet_size chain.length 0)).take data.length = data ∧
    print_ectp_src_rt (ectp_packet_bytes chain rcpt_num data ++ rest) = some chain := by
  have hlen := fwdmsgs_bytes_length chain
  have hdl : 0 < data.length := List.length_pos.mpr hdata
  have hbuf : ectp_packet_bytes chain rcpt_num data ++ rest
      = ([chain.length * ECTP_FWDMSG_SZ % 256] ++ fwdmsgs_bytes chain)
          ++ (ECTP_RPLYMSG :: rcpt_num % 256 :: rcpt_num / 256 % 256 :: rcpt_num / 65536 % 256
                :: rcpt_num / 16777216 % 256 :: (data ++ rest)) := by
    simp [ectp_packet_bytes, rcpt_num_bytes]
  have hprelen : ([chain.length * ECTP_FWDMSG_SZ % 256] ++ fwdmsgs_bytes chain).length
      = ECTP_PACKET_HDR_SZ + chain.length * ECTP_FWDMSG_SZ := by
    simp [hlen, ECTP_PACKET_HDR_SZ]
    omega
  have hskip : ectp_get_skipcount (ectp_packet_bytes chain rcpt_num data ++ rest)
      = chain.length * ECTP_FWDMSG_SZ := by
    simp only [ectp_get_skipcount, ectp_packet_bytes, List.singleton_append, List.cons_append,
      List.getD_cons_zero, ECTP_FWDMSG_SZ]
    omega
  have hrd : ∀ j k, j = ECTP_PACKET_HDR_SZ + chain.length * ECTP_FWDMSG_SZ + k →
      (ectp_packet_bytes chain rcpt_num data ++ rest).getD j 0
        = (ECTP_RPLYMSG :: rcpt_num % 256 :: rcpt_num / 256 % 256 :: rcpt_num / 65536 % 256
                :: rcpt_num / 16777216 % 256 :: (data ++ rest)).getD k 0 := by
    intro j k hj
    rw [hj, hbuf, ← hprelen]
    exact getD_append_add _ _ k
  have e1 : ECTP_MSG_FUNC_SZ = 1 := rfl
  have e2 : ECTP_PACKET_HDR_SZ = 1 := rfl
  have e3 : sizeof_ectp_reply_message = 4 := rfl
  have e4 : ECTP_FWDMSG_SZ = 7 := rfl
  refine ⟨?_, ?_, ?_⟩
  · have hchk : ectp_skipc_basicchk_ok (chain.length * ECTP_FWDMSG_SZ)
        (ectp_calc_packet_size chain.length data.length) = true := by
      rw [ectp_skipc_basicchk_ok_iff]
      unfold ectp_calc_packet_size
      constructor
      · exact Nat.mul_mod_left _ _
      · omega
    have htag : ectp_get_msg_type (ectp_packet_bytes chain rcpt_num data ++ rest)
        (ectp_get_curr_msg_ptr (ectp_packet_bytes chain rcpt_num data ++ rest))
        = ECTP_RPLYMSG := by
      simp only [ectp_get_msg_type, ectp_get_curr_msg_ptr, ectp_get_msg_ptr, hskip]
      rw [hrd (ECTP_PACKET_HDR_SZ + chain.length * ECTP_FWDMSG_SZ) 0 rfl]
      rfl
    have htok : ectp_get_rplymsg_rcpt_num (ectp_packet_bytes chain rcpt_num data ++ rest)
        (ectp_get_curr_msg_ptr (ectp_packet_bytes chain rcpt_num data ++ rest))
        = rcpt_num := by
      simp only [ectp_get_rplymsg_rcpt_num, ectp_get_curr_msg_ptr, ectp_get_msg_ptr, hskip]
      rw [hrd (ECTP_PACKET_HDR_SZ + chain.length * ECTP_FWDMSG_SZ + ECTP_MSG_FUNC_SZ) 1
          (by omega),
        hrd (ECTP_PACKET_HDR_SZ + chain.length * ECTP_FWDMSG_SZ + ECTP_MSG_FUNC_SZ + 1) 2
          (by omega),
        hrd (ECTP_PACKET_HDR_SZ + chain.length * ECTP_FWDMSG_SZ + ECTP_MSG_FUNC_SZ + 2) 3
          (by omega),
        hrd (ECTP_PACKET_HDR_SZ + chain.length * ECTP_FWDMSG_SZ + ECTP_MSG_FUNC_SZ + 3) 4
          (by omega)]
      exact rcpt_num_bytes_read rcpt_num htoken
    have hptr : ectp_get_rplymsg_data_ptr
        (ectp_get_curr_msg_ptr (ectp_packet_bytes chain rcpt_num data ++ rest))
        = ectp_calc_packet_size chain.length 0 := by
      simp only [ectp_get_rplymsg_data_ptr, ectp_get_curr_msg_ptr, ectp_get_msg_ptr, hskip,
        ectp_calc_packet_size]
      omega
    unfold ectp_pkt_valid
    dsimp only
    rw [hskip, hchk, htag, htok, hptr]
    unfold ectp_calc_packet_size
    rw [if_neg (by omega), if_neg (by simp), if_neg (by omega), if_neg (by simp),
      if_neg (by omega), if_neg (by simp)]
    congr 3
    omega
  · have hoff : ectp_calc_packet_size chain.length 0
        = ([chain.length * ECTP_FWDMSG_SZ % 256] ++ fwdmsgs_bytes chain
            ++ ([ECTP_RPLYMSG] ++ rcpt_num_bytes rcpt_num)).length := by
      simp only [ectp_calc_packet_size, List.length_append, List.length_cons, List.length_nil,
        hlen, rcpt_num_bytes]
      omega
    have hb2 : ectp_packet_bytes chain rcpt_num data ++ rest
        = ([chain.length * ECTP_FWDMSG_SZ % 256] ++ fwdmsgs_bytes chain
            ++ ([ECTP_RPLYMSG] ++ rcpt_num_bytes rcpt_num)) ++ (data ++ rest) := by
      simp [ectp_packet_bytes]
    rw [hoff, hb2, List.drop_left, List.take_left]
  · unfold print_ectp_src_rt
    have hb3 : ectp_packet_bytes chain rcpt_num data ++ rest
        = [chain.length * ECTP_FWDMSG_SZ % 256]
            ++ (fwdmsgs_bytes chain
              ++ ECTP_RPLYMSG :: (rcpt_num_bytes rcpt_num ++ data ++ rest)) := by
      simp [ectp_packet_bytes]
    have hfuel : chain.length
        < (ectp_packet_bytes chain rcpt_num data ++ rest).length + 1 := by
      rw [List.length_append, ectp_packet_bytes_length]
      simp only [ectp_calc_packet_size, ECTP_FWDMSG_SZ]
      omega
    rw [hb3] at hfuel ⊢
    exact print_ectp_src_rt_loop_chain chain _ _ _ 0 rfl hfuel

/-- The link-layer header takes `ETH_HLEN` bytes. -/
theorem build_ectp_eth_hdr_length (srcmac dstmac : ether_addr) :
    (build_ectp_eth_hdr srcmac dstmac).length = ETH_HLEN := by
  simp [build_ectp_eth_hdr, ether_addr.bytes, ETH_HLEN]

/-- What `build_ectp_frame` leaves in the buffer when the encoded packet fits: the
link-layer header, then the packet of the chain actually encoded, then the old content. -/
theorem build_ectp_frame_good (prog_parms : program_parameters) (frame_buf : List Nat)
    (frame_buf_sz : Nat) (prog_data : List Nat) (prog_data_size ectpping_pid : Nat)
    (hchain : prog_parms.num_fwdaddrs = prog_parms.fwdaddrs.length)
    (hdata : prog_data.length = prog_data_size)
    (huser : prog_parms.ectp_user_data.length = prog_parms.ectp_user_data_size)
    (hbuf : frame_buf_sz < UINT_MOD)
    (hfits : ETH_HLEN + ectp_calc_packet_size
        (if prog_parms.num_fwdaddrs ≠ 0 then prog_parms.fwdaddrs else [prog_parms.srcmac]).length
        (prog_data ++ prog_parms.ectp_user_data).length ≤ frame_buf_sz) :
    build_ectp_frame prog_parms frame_buf frame_buf_sz prog_data prog_data_size ectpping_pid true
      = (BUILD_ECTP_FRAME.GOOD,
          build_ectp_eth_hdr prog_parms.srcmac prog_parms.dstmac
            ++ (ectp_packet_bytes
                  (if prog_parms.num_fwdaddrs ≠ 0 then prog_parms.fwdaddrs
                    else [prog_parms.srcmac])
                  ectpping_pid (prog_data ++ prog_parms.ectp_user_data)
                ++ (frame_buf.drop ETH_HLEN).drop
                    (ectp_packet_bytes
                      (if prog_parms.num_fwdaddrs ≠ 0 then prog_parms.fwdaddrs
                        else [prog_parms.srcmac])
                      ectpping_pid (prog_data ++ prog_parms.ectp_user_data)).length),
          some (ETH_HLEN + ectp_calc_packet_size 1
            (prog_data ++ prog_parms.ectp_user_data).length)) := by
  have eH : ETH_HLEN = 14 := rfl
  have eS : sizeof_ether_header = 14 := rfl
  have eU : UINT_MOD = 4294967296 := rfl
  have e4 : ECTP_FWDMSG_SZ = 7 := rfl
  have hplen : (prog_data ++ prog_parms.ectp_user_data).length
      = prog_data_size + prog_parms.ectp_user_data_size := by
    rw [List.length_append, hdata, huser]
  have hclen : 1 ≤ (if prog_parms.num_fwdaddrs ≠ 0 then prog_parms.fwdaddrs
      else [prog_parms.srcmac]).length := by
    by_cases h0 : prog_parms.num_fwdaddrs = 0
    · simp [h0]
    · simp only [ne_eq, h0, not_false_eq_true, if_true]
      omega
  have hcalc : ∀ n d, ectp_calc_packet_size n d = 6 + n * 7 + d := by
    intro n d
    simp only [ectp_calc_packet_size, ECTP_PACKET_HDR_SZ, ECTP_FWDMSG_SZ, ECTP_MSG_FUNC_SZ,
      sizeof_ectp_reply_message]
    omega
  rw [hcalc] at hfits
  have hmod : (prog_data_size + prog_parms.ectp_user_data_size) % UINT_MOD
      = prog_data_size + prog_parms.ectp_user_data_size := by
    apply Nat.mod_eq_of_lt
    omega
  have htake1 : prog_data.take prog_data_size = prog_data := by
    rw [← hdata, List.take_length]
  have htake2 : prog_parms.ectp_user_data.take prog_parms.ectp_user_data_size
      = prog_parms.ectp_user_data := by
    rw [← huser, List.take_length]
  have hhdr := build_ectp_eth_hdr_length prog_parms.srcmac prog_parms.dstmac
  have hdrop : (build_ectp_eth_hdr prog_parms.srcmac prog_parms.dstmac
      ++ frame_buf.drop ETH_HLEN).drop ETH_HLEN = frame_buf.drop ETH_HLEN := by
    rw [← hhdr, List.drop_left]
  have htk : (build_ectp_eth_hdr prog_parms.srcmac prog_parms.dstmac
      ++ frame_buf.drop ETH_HLEN).take ETH_HLEN
      = build_ectp_eth_hdr prog_parms.srcmac prog_parms.dstmac := by
    rw [← hhdr, List.take_left]
  have hchaintake : (if prog_parms.num_fwdaddrs ≠ 0 then prog_parms.fwdaddrs
        else [prog_parms.srcmac]).take
        (if prog_parms.num_fwdaddrs ≠ 0 then prog_parms.num_fwdaddrs else 1)
      = (if prog_parms.num_fwdaddrs ≠ 0 then prog_parms.fwdaddrs
          else [prog_parms.srcmac]) := by
    by_cases h0 : prog_parms.num_fwdaddrs = 0
    · simp [h0]
    · simp only [ne_eq, h0, not_false_eq_true, if_true]
      rw [hchain, List.take_length]
  unfold build_ectp_frame
  dsimp only
  rw [if_neg (by omega), hmod, ← hplen, hcalc, if_neg (by omega), if_neg (by simp), hdrop, htk,
    htake1, htake2]
  unfold ectp_build_packet
  dsimp only
  rw [hplen, List.take_of_length_le (by omega : (prog_data ++ prog_parms.ectp_user_data).length
      ≤ prog_data_size + prog_parms.ectp_user_data_size), hchaintake,
    if_neg (by rw [ectp_packet_bytes_length, hcalc]; omega)]

/-- C1, as amended: for every configured forward chain of 0 to 10 addresses, every session
token of 32 bits and every non-empty payload (the probe data followed by the user data),
the packet that `build_ectp_frame` has `ectp_build_packet` write behind the link-layer
header, taken at its encoded size and validated with `ectp_pkt_valid` against the same
token, is accepted; the data handed back is exactly the payload, same bytes and same
length, and the walk over its Forward messages gives the chain that was encoded: the
configured chain, or, for the empty configured chain, the single address of the sender. -/
theorem build_ectp_frame_round_trip (prog_parms : program_parameters) (frame_buf : List Nat)
    (frame_buf_sz : Nat) (prog_data : List Nat) (prog_data_size ectpping_pid : Nat)
    (hchain : prog_parms.num_fwdaddrs = prog_parms.fwdaddrs.length)
    (hten : prog_parms.num_fwdaddrs ≤ 10)
    (htoken : ectpping_pid < 4294967296)
    (hdata : prog_data.length = prog_data_size)
    (huser : prog_parms.ectp_user_data.length = prog_parms.ectp_user_data_size)
    (hpayload : prog_data ++ prog_parms.ectp_user_data ≠ [])
    (hbuf : frame_buf_sz < UINT_MOD)
    (hfits : ETH_HLEN + ectp_calc_packet_size
        (if prog_parms.num_fwdaddrs ≠ 0 then prog_parms.fwdaddrs else [prog_parms.srcmac]).length
        (prog_data ++ prog_parms.ectp_user_data).length ≤ frame_buf_sz) :
    let chain := if prog_parms.num_fwdaddrs ≠ 0 then prog_parms.fwdaddrs else [prog_parms.srcmac]
    let payload := prog_data ++ prog_parms.ectp_user_data
    let built :=
      build_ectp_frame prog_parms frame_buf frame_buf_sz prog_data prog_data_size ectpping_pid true
    let ectp_pkt := built.2.1.drop ETH_HLEN
    built.1 = BUILD_ECTP_FRAME.GOOD ∧
      ectp_pkt_valid ectp_pkt (ectp_calc_packet_size chain.length payload.length) ectpping_pid
        = (ECTP_PKT_VALID.GOOD, some (ectp_calc_packet_size chain.length 0, payload.length)) ∧
      (ectp_pkt.drop (ectp_calc_packet_size chain.length 0)).take payload.length = payload ∧
      print_ectp_src_rt ectp_pkt = some chain := by
  intro chain payload built ectp_pkt
  have hgood := build_ectp_frame_good prog_parms frame_buf frame_buf_sz prog_data prog_data_size
    ectpping_pid hchain hdata huser hbuf hfits
  have hclen : chain.length ≤ 36 := by
    show (if prog_parms.num_fwdaddrs ≠ 0 then prog_parms.fwdaddrs
      else [prog_parms.srcmac]).length ≤ 36
    by_cases h0 : prog_parms.num_fwdaddrs = 0
    · simp [h0]
    · simp only [ne_eq, h0, not_false_eq_true, if_true]
      omega
  have hpkt : ectp_pkt = ectp_packet_bytes chain ectpping_pid payload
      ++ (frame_buf.drop ETH_HLEN).drop (ectp_packet_bytes chain ectpping_pid payload).length := by
    show (build_ectp_frame prog_parms frame_buf frame_buf_sz prog_data prog_data_size
      ectpping_pid true).2.1.drop ETH_HLEN = _
    rw [hgood]
    show (build_ectp_eth_hdr prog_parms.srcmac prog_parms.dstmac ++ _).drop ETH_HLEN = _
    rw [← build_ectp_eth_hdr_length prog_parms.srcmac prog_parms.dstmac, List.drop_left]
  have hdec := ectp_packet_bytes_decode chain ectpping_pid payload
    ((frame_buf.drop ETH_HLEN).drop (ectp_packet_bytes chain ectpping_pid payload).length)
    hclen htoken hpayload
  refine ⟨?_, ?_, ?_, ?_⟩
  · show (build_ectp_frame prog_parms frame_buf frame_buf_sz prog_data prog_data_size
      ectpping_pid true).1 = _
    rw [hgood]
  · rw [hpkt]
    exact hdec.1
  · rw [hpkt]
    exact hdec.2.1
  · rw [hpkt]
    exact hdec.2.2

/-- Witness of C1 as amended: the chain of two addresses, token 1234 and the payload
`[7, 8, 9]` in a zeroed buffer of 64 bytes. -/
theorem build_ectp_frame_round_trip_witness :
    (build_ectp_frame example_parms_two_hops (List.replicate 64 0) 64 [7, 8, 9] 3 1234 true).1
        = BUILD_ECTP_FRAME.GOOD ∧
      ectp_pkt_valid
          ((build_ectp_frame example_parms_two_hops (List.replicate 64 0) 64 [7, 8, 9] 3 1234
            true).2.1.drop ETH_HLEN)
          (ectp_calc_packet_size 2 3) 1234
        = (ECTP_PKT_VALID.GOOD, some (ectp_calc_packet_size 2 0, 3)) ∧
      (((build_ectp_frame example_parms_two_hops (List.replicate 64 0) 64 [7, 8, 9] 3 1234
            true).2.1.drop ETH_HLEN).drop (ectp_calc_packet_size 2 0)).take 3 = [7, 8, 9] ∧
      print_ectp_src_rt
          ((build_ectp_frame example_parms_two_hops (List.replicate 64 0) 64 [7, 8, 9] 3 1234
            true).2.1.drop ETH_HLEN)
        = some [⟨0, 17, 34, 51, 68, 85⟩, ⟨2, 0, 0, 0, 0, 1⟩] :=
  build_ectp_frame_round_trip example_parms_two_hops (List.replicate 64 0) 64 [7, 8, 9] 3 1234
    rfl (by decide) (by decide) rfl rfl (by decide) (by decide) (by decide)

/-- Counterexample to C1 as stated.  With the empty payload, the packet encoded for the
chain of two addresses and token 1234 is rejected with TOOSMALL when validated at its
encoded size against the same token.  With no chain configured, the packet encoded for
the payload `[7]` is accepted, and the chain found in it is not the empty chain but the
single address of the sender. -/
theorem build_ectp_frame_round_trip_counterexample :
    ((build_ectp_frame example_parms_two_hops (List.replicate 64 0) 64 [] 0 1234 true).1
        = BUILD_ECTP_FRAME.GOOD ∧
      ectp_pkt_valid
          ((build_ectp_frame example_parms_two_hops (List.replicate 64 0) 64 [] 0 1234
            true).2.1.drop ETH_HLEN)
          (ectp_calc_packet_size 2 0) 1234
        = (ECTP_PKT_VALID.TOOSMALL, none)) ∧
    ((build_ectp_frame example_parms_no_chain (List.replicate 64 0) 64 [7] 1 1234 true).1
        = BUILD_ECTP_FRAME.GOOD ∧
      ectp_pkt_valid
          ((build_ectp_frame example_parms_no_chain (List.replicate 64 0) 64 [7] 1 1234
            true).2.1.drop ETH_HLEN)
          (ectp_calc_packet_size 1 1) 1234
        = (ECTP_PKT_VALID.GOOD, some (ectp_calc_packet_size 1 0, 1)) ∧
      print_ectp_src_rt
          ((build_ectp_frame example_parms_no_chain (List.replicate 64 0) 64 [7] 1 1234
            true).2.1.drop ETH_HLEN)
        = some [⟨2, 0, 0, 0, 0, 1⟩] ∧
      print_ectp_src_rt
          ((build_ectp_frame example_parms_no_chain (List.replicate 64 0) 64 [7] 1 1234
            true).2.1.drop ETH_HLEN)
        ≠ some example_parms_no_chain.fwdaddrs) := by
  decide

/-! ## Theorems: RTT and statistics -/

/-- A value inside the range of a 64-bit `long` is kept by the machine arithmetic. -/
theorem wrap_long_of_range (x : Int) (hlo : -9223372036854775808 ≤ x)
    (hhi : x ≤ 9223372036854775807) : wrap_long x = x := by
  unfold wrap_long
  omega

/-- C6, as amended: for a normalized arrival time and a normalized departure time with the
arrival not before the departure and their difference below 2^63 seconds, so that the
seconds of the difference fit the 64-bit `tv_sec`, the RTT that `print_rxed_packet`
computes with `timersub` is a normalized pair with non-negative seconds whose value in
microseconds is exactly the arrival minus the departure; it is the RTT of the printed
line. -/
theorem print_rxed_packet_rtt_exact (g : Globals) (a : rxed_packet_args)
    (harrived : a.pkt_arrived.normalized) (hdeparted : a.eping_payload.tv.normalized)
    (horder : a.eping_payload.tv.usecs ≤ a.pkt_arrived.usecs)
    (hfits : a.pkt_arrived.usecs - a.eping_payload.tv.usecs
      < 9223372036854775808 * 1000000) :
    a.tv_diff.normalized ∧ 0 ≤ a.tv_diff.tv_sec ∧
      a.tv_diff.usecs = a.pkt_arrived.usecs - a.eping_payload.tv.usecs ∧
      0 ≤ a.tv_diff.usecs ∧
      (a.prog_parms.zero_pkt_output = false →
        (print_rxed_packet g a).2.head?
          = some (Out.rxed_line a.pkt_len a.srcmac a.eping_payload.seq_num a.tv_diff)) := by
  obtain ⟨h1, h2⟩ := harrived
  obtain ⟨h3, h4⟩ := hdeparted
  unfold timeval.usecs at horder hfits
  have hval : a.tv_diff.normalized ∧ 0 ≤ a.tv_diff.tv_sec ∧
      a.tv_diff.usecs = a.pkt_arrived.usecs - a.eping_payload.tv.usecs := by
    unfold rxed_packet_args.tv_diff timersub timeval.normalized timeval.usecs wrap_long
    dsimp only
    split
    · dsimp only
      omega
    · dsimp only
      omega
  refine ⟨hval.1, hval.2.1, hval.2.2, ?_, ?_⟩
  · rw [hval.2.2]
    unfold timeval.usecs
    omega
  · intro hz
    simp [print_rxed_packet, hz]

/-- Witness of C6 as amended: arrival at 12.000100 s and departure at 10.999900 s, a
borrow of one second, give the RTT 1.000200 s. -/
theorem print_rxed_packet_rtt_exact_witness :
    (example_rxed_call_departed ⟨12, 100⟩ ⟨10, 999900⟩).tv_diff = ⟨1, 200⟩ ∧
      (example_rxed_call_departed ⟨12, 100⟩ ⟨10, 999900⟩).tv_diff.normalized ∧
      (example_rxed_call_departed ⟨12, 100⟩ ⟨10, 999900⟩).tv_diff.usecs = 12000100 - 10999900 :=
  ⟨by decide,
    (print_rxed_packet_rtt_exact Globals.init
      (example_rxed_call_departed ⟨12, 100⟩ ⟨10, 999900⟩)
      (by decide) (by decide) (by decide) (by decide)).1,
    by decide⟩

/-- Counterexample to C6 as stated: the arrival time 1700000000.000000 s and the departure
time -9223372036854775808.000000 s, the least `tv_sec` of a 64-bit `long`, as the payload
of a received packet can hold it, are normalized pairs with the arrival after the
departure; the subtraction of the seconds wraps, and the RTT that `print_rxed_packet`
computes has the negative seconds -9223372035154775808 and is not the difference. -/
theorem print_rxed_packet_rtt_exact_counterexample :
    (example_rxed_call_departed ⟨1700000000, 0⟩ ⟨-9223372036854775808, 0⟩).pkt_arrived.normalized ∧
      (example_rxed_call_departed ⟨1700000000, 0⟩
        ⟨-9223372036854775808, 0⟩).eping_payload.tv.normalized ∧
      (example_rxed_call_departed ⟨1700000000, 0⟩ ⟨-9223372036854775808, 0⟩).eping_payload.tv.usecs
        ≤ (example_rxed_call_departed ⟨1700000000, 0⟩
            ⟨-9223372036854775808, 0⟩).pkt_arrived.usecs ∧
      -9223372036854775808 ≤ (example_rxed_call_departed ⟨1700000000, 0⟩
        ⟨-9223372036854775808, 0⟩).eping_payload.tv.tv_sec ∧
      (example_rxed_call_departed ⟨1700000000, 0⟩ ⟨-9223372036854775808, 0⟩).tv_diff
        = ⟨-9223372035154775808, 0⟩ ∧
      (example_rxed_call_departed ⟨1700000000, 0⟩ ⟨-9223372036854775808, 0⟩).tv_diff.tv_sec < 0 ∧
      (example_rxed_call_departed ⟨1700000000, 0⟩ ⟨-9223372036854775808, 0⟩).tv_diff.usecs
        ≠ (example_rxed_call_departed ⟨1700000000, 0⟩
              ⟨-9223372036854775808, 0⟩).pkt_arrived.usecs
            - (example_rxed_call_departed ⟨1700000000, 0⟩
              ⟨-9223372036854775808, 0⟩).eping_payload.tv.usecs := by
  decide

/-- The statistics fields after one call of `print_rxed_packet`. -/
theorem print_rxed_packet_globals (g : Globals) (a : rxed_packet_args) :
    (print_rxed_packet g a).1
      = { g with
          sum_rtts := timeradd g.sum_rtts a.tv_diff
          min_rtt :=
            if a.tv_diff.tv_sec < g.min_rtt.tv_sec ∨
                (a.tv_diff.tv_sec = g.min_rtt.tv_sec ∧ a.tv_diff.tv_usec < g.min_rtt.tv_usec)
            then a.tv_diff else g.min_rtt
          max_rtt :=
            if a.tv_diff.tv_sec > g.max_rtt.tv_sec ∨
                (a.tv_diff.tv_sec = g.max_rtt.tv_sec ∧ a.tv_diff.tv_usec > g.max_rtt.tv_usec)
            then a.tv_diff else g.max_rtt } := rfl

/-- The sum of two normalized, non-negative time values whose exact sum is below 2^63
seconds is normalized, non-negative and exact. -/
theorem timeradd_normalized (a b : timeval) (ha : a.normalized) (hb : b.normalized)
    (ha0 : 0 ≤ a.tv_sec) (hb0 : 0 ≤ b.tv_sec)
    (hfits : a.usecs + b.usecs < 9223372036854775808 * 1000000) :
    (timeradd a b).normalized ∧ (timeradd a b).usecs = a.usecs + b.usecs ∧
      0 ≤ (timeradd a b).tv_sec := by
  obtain ⟨h1, h2⟩ := ha
  obtain ⟨h3, h4⟩ := hb
  unfold timeval.usecs at hfits
  unfold timeradd timeval.normalized timeval.usecs wrap_long
  dsimp only
  split
  · dsimp only
    omega
  · dsimp only
    omega

/-- One call of `print_rxed_packet` with a normalized sample of 0 to `INT_MAX` seconds
keeps the statistics a summary of the samples, as long as the sum stays below 2^63
seconds. -/
theorem rtt_stats_inv_step (g : Globals) (a : rxed_packet_args) (seen : List timeval)
    (hinv : rtt_stats_inv g seen) (hseen : ∀ s ∈ seen, s.normalized)
    (hnorm : a.tv_diff.normalized) (hnonneg : 0 ≤ a.tv_diff.tv_sec)
    (hmax : a.tv_diff.tv_sec ≤ INT_MAX)
    (hfits : g.sum_rtts.usecs + a.tv_diff.usecs < 9223372036854775808 * 1000000) :
    rtt_stats_inv (print_rxed_packet g a).1 (seen ++ [a.tv_diff]) := by
  obtain ⟨hmin, hmx, hsn, hsum, hs0⟩ := hinv
  have eI : INT_MAX = 2147483647 := rfl
  have hadd := timeradd_normalized g.sum_rtts a.tv_diff hsn hnorm hs0 hnonneg hfits
  obtain ⟨hd1, hd2⟩ := hnorm
  rw [print_rxed_packet_globals]
  refine ⟨?_, ?_, ?_, ?_, ?_⟩
  · right
    dsimp only
    rcases hmin with ⟨hnil, hsent⟩ | ⟨hmem, hle⟩
    · have hc : a.tv_diff.tv_sec < g.min_rtt.tv_sec ∨
          (a.tv_diff.tv_sec = g.min_rtt.tv_sec ∧ a.tv_diff.tv_usec < g.min_rtt.tv_usec) := by
        rw [hsent]
        dsimp only
        omega
      rw [if_pos hc, hnil]
      simp
    · have hgn := hseen _ hmem
      obtain ⟨hg1, hg2⟩ := hgn
      by_cases hc : a.tv_diff.tv_sec < g.min_rtt.tv_sec ∨
          (a.tv_diff.tv_sec = g.min_rtt.tv_sec ∧ a.tv_diff.tv_usec < g.min_rtt.tv_usec)
      · rw [if_pos hc]
        refine ⟨by simp, ?_⟩
        intro s hs
        rcases List.mem_append.mp hs with h | h
        · have := hle s h
          unfold timeval.usecs at this ⊢
          omega
        · rw [List.mem_singleton.mp h]
      · rw [if_neg hc]
        refine ⟨List.mem_append_left _ hmem, ?_⟩
        intro s hs
        rcases List.mem_append.mp hs with h | h
        · exact hle s h
        · rw [List.mem_singleton.mp h]
          unfold timeval.usecs
          omega
  · right
    dsimp only
    rcases hmx with ⟨hnil, hzero⟩ | ⟨hmem, hle⟩
    · by_cases hc : a.tv_diff.tv_sec > g.max_rtt.tv_sec ∨
          (a.tv_diff.tv_sec = g.max_rtt.tv_sec ∧ a.tv_diff.tv_usec > g.max_rtt.tv_usec)
      · rw [if_pos hc, hnil]
        simp
      · rw [if_neg hc, hnil]
        rw [hzero] at hc ⊢
        dsimp only at hc
        have hs0 : a.tv_diff.tv_sec = 0 := by omega
        have hu0 : a.tv_diff.tv_usec = 0 := by omega
        have hz : a.tv_diff = { tv_sec := 0, tv_usec := 0 } := by
          cases hd : a.tv_diff with
          | mk s u =>
            rw [hd] at hs0 hu0
            dsimp only at hs0 hu0
            rw [hs0, hu0]
        rw [hz]
        simp
    · have hgn := hseen _ hmem
      obtain ⟨hg1, hg2⟩ := hgn
      by_cases hc : a.tv_diff.tv_sec > g.max_rtt.tv_sec ∨
          (a.tv_diff.tv_sec = g.max_rtt.tv_sec ∧ a.tv_diff.tv_usec > g.max_rtt.tv_usec)
      · rw [if_pos hc]
        refine ⟨by simp, ?_⟩
        intro s hs
        rcases List.mem_append.mp hs with h | h
        · have := hle s h
          unfold timeval.usecs at this ⊢
          omega
        · rw [List.mem_singleton.mp h]
      · rw [if_neg hc]
        refine ⟨List.mem_append_left _ hmem, ?_⟩
        intro s hs
        rcases List.mem_append.mp hs with h | h
        · exact hle s h
        · rw [List.mem_singleton.mp h]
          unfold timeval.usecs
          omega
  · exact hadd.1
  · dsimp only
    rw [hadd.2.1, hsum]
    simp
  · exact hadd.2.2

/-- The samples of calls with normalized, non-negative RTTs sum to a non-negative
total. -/
theorem tv_diff_usecs_sum_nonneg (calls : List rxed_packet_args)
    (hcalls : ∀ a ∈ calls,
      a.tv_diff.normalized ∧ 0 ≤ a.tv_diff.tv_sec ∧ a.tv_diff.tv_sec ≤ INT_MAX) :
    0 ≤ (calls.map (fun a => a.tv_diff.usecs)).sum := by
  apply List.sum_nonneg
  intro x hx
  obtain ⟨a, ha, rfl⟩ := List.mem_map.mp hx
  obtain ⟨⟨h1, _⟩, h2, _⟩ := hcalls a ha
  unfold timeval.usecs
  omega

/-- A sequence of calls of `print_rxed_packet` with normalized samples of 0 to `INT_MAX`
seconds whose total, with what is already summed, is below 2^63 seconds keeps the
statistics a summary of the samples. -/
theorem rtt_stats_inv_calls (calls : List rxed_packet_args) :
    ∀ (g : Globals) (seen : List timeval), rtt_stats_inv g seen →
      (∀ s ∈ seen, s.normalized) →
      (∀ a ∈ calls, a.tv_diff.normalized ∧ 0 ≤ a.tv_diff.tv_sec ∧ a.tv_diff.tv_sec ≤ INT_MAX) →
      (seen.map timeval.usecs).sum + (calls.map (fun a => a.tv_diff.usecs)).sum
        < 9223372036854775808 * 1000000 →
      rtt_stats_inv (print_rxed_packets g calls)
        (seen ++ calls.map rxed_packet_args.tv_diff) := by
  induction calls with
  | nil =>
    intro g seen hinv _ _ _
    simpa [print_rxed_packets] using hinv
  | cons a rest ih =>
    intro g seen hinv hseen hcalls htotal
    have ha := hcalls a (List.mem_cons_self _ _)
    have hrestnn := tv_diff_usecs_sum_nonneg rest
      (fun b hb => hcalls b (List.mem_cons_of_mem _ hb))
    rw [List.map_cons, List.sum_cons] at htotal
    have hfits : g.sum_rtts.usecs + a.tv_diff.usecs < 9223372036854775808 * 1000000 := by
      rw [hinv.2.2.2.1]
      omega
    have hstep := rtt_stats_inv_step g a seen hinv hseen ha.1 ha.2.1 ha.2.2 hfits
    have hseen2 : ∀ s ∈ seen ++ [a.tv_diff], s.normalized := by
      intro s hs
      rcases List.mem_append.mp hs with h | h
      · exact hseen s h
      · rw [List.mem_singleton.mp h]
        exact ha.1
    have htotal2 : ((seen ++ [a.tv_diff]).map timeval.usecs).sum
        + (rest.map (fun b => b.tv_diff.usecs)).sum < 9223372036854775808 * 1000000 := by
      rw [List.map_append, List.sum_append, List.map_cons, List.map_nil, List.sum_cons,
        List.sum_nil]
      omega
    have hrest := ih (print_rxed_packet g a).1 (seen ++ [a.tv_diff]) hstep hseen2
      (fun b hb => hcalls b (List.mem_cons_of_mem _ hb)) htotal2
    simpa [print_rxed_packets] using hrest

/-- C7, as amended: from the initial statistics, after `print_rxed_packet` has recorded a
non-empty sequence of normalized RTT samples of 0 to `INT_MAX` seconds whose total is
below 2^63 seconds, so that the seconds of the sum fit the 64-bit `tv_sec`, `min_rtt` is
the smallest sample, `max_rtt` is the largest sample and `sum_rtts` is the normalized sum
of all samples. -/
theorem print_rxed_packets_stats (calls : List rxed_packet_args) (hne : calls ≠ [])
    (hsamples : ∀ a ∈ calls,
      a.tv_diff.normalized ∧ 0 ≤ a.tv_diff.tv_sec ∧ a.tv_diff.tv_sec ≤ INT_MAX)
    (htotal : (calls.map (fun a => a.tv_diff.usecs)).sum < 9223372036854775808 * 1000000) :
    ((print_rxed_packets Globals.init calls).min_rtt ∈ calls.map rxed_packet_args.tv_diff ∧
      ∀ a ∈ calls, (print_rxed_packets Globals.init calls).min_rtt.usecs ≤ a.tv_diff.usecs) ∧
    ((print_rxed_packets Globals.init calls).max_rtt ∈ calls.map rxed_packet_args.tv_diff ∧
      ∀ a ∈ calls, a.tv_diff.usecs ≤ (print_rxed_packets Globals.init calls).max_rtt.usecs) ∧
    (print_rxed_packets Globals.init calls).sum_rtts.normalized ∧
    (print_rxed_packets Globals.init calls).sum_rtts.usecs
      = (calls.map (fun a => a.tv_diff.usecs)).sum := by
  have hinit : rtt_stats_inv Globals.init [] := by
    refine ⟨Or.inl ⟨rfl, rfl⟩, Or.inl ⟨rfl, rfl⟩, ?_, ?_, ?_⟩
    · exact ⟨by decide, by decide⟩
    · rfl
    · decide
  have h := rtt_stats_inv_calls calls Globals.init [] hinit (by simp) hsamples
    (by simpa using htotal)
  rw [List.nil_append] at h
  obtain ⟨hmin, hmx, hsn, hsum, _⟩ := h
  have hne2 : calls.map rxed_packet_args.tv_diff ≠ [] := by
    simpa using hne
  refine ⟨?_, ?_, hsn, ?_⟩
  · rcases hmin with ⟨hnil, _⟩ | ⟨hmem, hle⟩
    · exact absurd hnil hne2
    · exact ⟨hmem, fun a ha => hle _ (List.mem_map_of_mem _ ha)⟩
  · rcases hmx with ⟨hnil, _⟩ | ⟨hmem, hle⟩
    · exact absurd hnil hne2
    · exact ⟨hmem, fun a ha => hle _ (List.mem_map_of_mem _ ha)⟩
  · rw [hsum, List.map_map]
    rfl

/-- Witness of C7 as amended, with the samples 5 ms, 1 ms and 9 ms of the claim: the
minimum is 1 ms, the maximum 9 ms and the sum 15 ms. -/
theorem print_rxed_packets_stats_witness :
    (((print_rxed_packets Globals.init
          [example_rxed_call ⟨10, 5000⟩, example_rxed_call ⟨10, 1000⟩,
            example_rxed_call ⟨10, 9000⟩]).min_rtt
        ∈ [example_rxed_call ⟨10, 5000⟩, example_rxed_call ⟨10, 1000⟩,
            example_rxed_call ⟨10, 9000⟩].map rxed_packet_args.tv_diff) ∧
      (print_rxed_packets Globals.init
          [example_rxed_call ⟨10, 5000⟩, example_rxed_call ⟨10, 1000⟩,
            example_rxed_call ⟨10, 9000⟩]).sum_rtts.normalized) ∧
    [example_rxed_call ⟨10, 5000⟩, example_rxed_call ⟨10, 1000⟩,
        example_rxed_call ⟨10, 9000⟩].map rxed_packet_args.tv_diff
      = [⟨0, 5000⟩, ⟨0, 1000⟩, ⟨0, 9000⟩] ∧
    (print_rxed_packets Globals.init
        [example_rxed_call ⟨10, 5000⟩, example_rxed_call ⟨10, 1000⟩,
          example_rxed_call ⟨10, 9000⟩]).min_rtt = ⟨0, 1000⟩ ∧
    (print_rxed_packets Globals.init
        [example_rxed_call ⟨10, 5000⟩, example_rxed_call ⟨10, 1000⟩,
          example_rxed_call ⟨10, 9000⟩]).max_rtt = ⟨0, 9000⟩ ∧
    (print_rxed_packets Globals.init
        [example_rxed_call ⟨10, 5000⟩, example_rxed_call ⟨10, 1000⟩,
          example_rxed_call ⟨10, 9000⟩]).sum_rtts = ⟨0, 15000⟩ := by
  have h := print_rxed_packets_stats
    [example_rxed_call ⟨10, 5000⟩, example_rxed_call ⟨10, 1000⟩, example_rxed_call ⟨10, 9000⟩]
    (List.cons_ne_nil _ _) (by decide) (by decide)
  exact ⟨⟨h.1.1, h.2.2.1⟩, by decide, by decide, by decide, by decide⟩

/-- The seconds of `sum_rtts` after the same sample of `INT_MAX` whole seconds has been
recorded `k` times: the machine sum, wrapped at 64 bits. -/
theorem print_rxed_packets_replicate_sum (c : rxed_packet_args)
    (hc : c.tv_diff = { tv_sec := 2147483647, tv_usec := 0 }) (k : Nat) :
    ∀ (g : Globals) (x : Int), g.sum_rtts = { tv_sec := wrap_long x, tv_usec := 0 } →
      (print_rxed_packets g (List.replicate k c)).sum_rtts
        = { tv_sec := wrap_long (x + (k : Int) * 2147483647), tv_usec := 0 } := by
  induction k with
  | zero =>
    intro g x hg
    simpa [print_rxed_packets] using hg
  | succ k ih =>
    intro g x hg
    have hstep : (print_rxed_packet g c).1.sum_rtts
        = { tv_sec := wrap_long (x + 2147483647), tv_usec := 0 } := by
      rw [print_rxed_packet_globals]
      dsimp only
      rw [hg, hc]
      unfold timeradd wrap_long
      dsimp only
      rw [if_neg (by omega)]
      refine congrArg₂ timeval.mk ?_ ?_ <;> omega
    have hrec := ih (print_rxed_packet g c).1 (x + 2147483647) hstep
    have hfold : print_rxed_packets g (List.replicate (k + 1) c)
        = print_rxed_packets (print_rxed_packet g c).1 (List.replicate k c) := by
      simp [print_rxed_packets, List.replicate_succ]
    rw [hfold, hrec]
    refine congrArg₂ timeval.mk ?_ rfl
    congr 1
    push_cast
    ring

/-- Counterexample to C7 as stated.  The single normalized, non-negative sample of
2147483648 seconds (`INT_MAX` + 1) is not below the initial `min_rtt`, which stays
(`INT_MAX`, `INT_MAX`) and is not the smallest sample.  Two samples of 2^62 seconds make
the seconds of `sum_rtts` wrap to -2^63.  And the sample of `INT_MAX` seconds recorded
4294967299 times has the total 2^63 + 2^31 - 3 seconds, which `sum_rtts` holds as the
negative -9223372034707292163 seconds. -/
theorem print_rxed_packets_stats_counterexample :
    ((example_rxed_call ⟨2147483658, 0⟩).tv_diff = ⟨2147483648, 0⟩ ∧
      (example_rxed_call ⟨2147483658, 0⟩).tv_diff.normalized ∧
      0 ≤ (example_rxed_call ⟨2147483658, 0⟩).tv_diff.tv_sec ∧
      (print_rxed_packets Globals.init [example_rxed_call ⟨2147483658, 0⟩]).min_rtt
        = ⟨2147483647, 2147483647⟩ ∧
      (print_rxed_packets Globals.init [example_rxed_call ⟨2147483658, 0⟩]).min_rtt
        ≠ (example_rxed_call ⟨2147483658, 0⟩).tv_diff) ∧
    ((example_rxed_call ⟨4611686018427387914, 0⟩).tv_diff = ⟨4611686018427387904, 0⟩ ∧
      (print_rxed_packets Globals.init
          [example_rxed_call ⟨4611686018427387914, 0⟩,
            example_rxed_call ⟨4611686018427387914, 0⟩]).sum_rtts
        = ⟨-9223372036854775808, 0⟩) ∧
    ((example_rxed_call ⟨2147483657, 0⟩).tv_diff = ⟨2147483647, 0⟩ ∧
      (example_rxed_call ⟨2147483657, 0⟩).tv_diff.normalized ∧
      (example_rxed_call ⟨2147483657, 0⟩).tv_diff.tv_sec ≤ INT_MAX ∧
      (print_rxed_packets Globals.init
          (List.replicate 4294967299 (example_rxed_call ⟨2147483657, 0⟩))).sum_rtts
        = ⟨-9223372034707292163, 0⟩) := by
  refine ⟨by decide, by decide, by decide, by decide, by decide, ?_⟩
  rw [print_rxed_packets_replicate_sum (example_rxed_call ⟨2147483657, 0⟩) (by decide)
    4294967299 Globals.init 0 (by decide)]
  decide

/-! ## Theorems: the receive loop and the shutdown report -/

/-- The receive loop leaves every global as it found it. -/
theorem process_rxed_frames_globals (frames : List rxed_frame) :
    ∀ (st : Globals × List Out),
      (frames.foldl
        (fun st f =>
          ((process_rxed_frames_iter st.1 f).1, st.2 ++ (process_rxed_frames_iter st.1 f).2))
        st).1 = st.1 := by
  induction frames with
  | nil => intro st; rfl
  | cons f rest ih =>
    intro st
    rw [List.foldl_cons, ih]
    rfl

/-- C8, the code at the failing input: three frames that each carry a Reply which
`ectp_pkt_valid` accepts for the session token 1234 pass through `process_rxed_frames`
from the initial state, and `rxed_pkts` is still 0, not 3; the loop leaves the globals
untouched for every sequence of frames, and `print_rxed_packet` does not count either. -/
theorem process_rxed_frames_rxed_pkts_not_counted :
    (ectp_pkt_valid (example_reply_frame.buf.drop ETH_HLEN)
        (example_reply_frame.pkt_len - ETH_HLEN) 1234).1 = ECTP_PKT_VALID.GOOD ∧
      (process_rxed_frames Globals.init
        [example_reply_frame, example_reply_frame, example_reply_frame]).1.rxed_pkts = 0 ∧
      (∀ (g : Globals) (frames : List rxed_frame), (process_rxed_frames g frames).1 = g) ∧
      (∀ (g : Globals) (a : rxed_packet_args),
        (print_rxed_packet g a).1.rxed_pkts = g.rxed_pkts) := by
  refine ⟨by decide, by decide, ?_, ?_⟩
  · intro g frames
    exact process_rxed_frames_globals frames (g, [])
  · intro g a
    rfl

/-- C10, the code at the failing input: with 3.000000 s of total RTT over 2 replies the
report shows the average 1.000000, where the total divided by the number of replies,
truncated to a microsecond, is 1.500000. -/
theorem sigint_hdlr_avg_three_seconds_two_replies :
    sigint_hdlr_avg
        { txed_pkts := 2
          rxed_pkts := 2
          min_rtt := { tv_sec := 1, tv_usec := 0 }
          max_rtt := { tv_sec := 2, tv_usec := 0 }
          sum_rtts := { tv_sec := 3, tv_usec := 0 } }
      = some (1, 0) ∧
    avg_rtt_spec { tv_sec := 3, tv_usec := 0 } 2 = (1, 500000) := by
  decide

/-! ## Theorems: the Reply header and the payload of an accepted packet -/

/-- C13, as amended: a packet that passes the length, skip-count and message-type checks
and carries the expected token is answered with TOOSMALL exactly when header size + skip
count + message-type size + Reply header size reaches the packet length (is at least the
length); below the length the packet is accepted.  A packet whose length equals that
offset exactly, a Reply with no data, is answered with TOOSMALL. -/
theorem ectp_pkt_valid_reply_header_bound (ectp_pkt : List Nat)
    (ectp_pkt_size ectpping_pid : Nat)
    (hsize : ECTP_PACKET_HDR_SZ ≤ ectp_pkt_size)
    (hskip : ectp_skipc_basicchk_ok (ectp_get_skipcount ectp_pkt) ectp_pkt_size = true)
    (htag : ectp_get_msg_type ectp_pkt (ECTP_PACKET_HDR_SZ + ectp_get_skipcount ectp_pkt)
      = ECTP_RPLYMSG)
    (htoken : ectp_get_rplymsg_rcpt_num ectp_pkt
      (ECTP_PACKET_HDR_SZ + ectp_get_skipcount ectp_pkt) = ectpping_pid) :
    ((ectp_pkt_valid ectp_pkt ectp_pkt_size ectpping_pid).1 = ECTP_PKT_VALID.TOOSMALL ↔
        ECTP_PACKET_HDR_SZ + ectp_get_skipcount ectp_pkt + ECTP_MSG_FUNC_SZ
          + sizeof_ectp_reply_message ≥ ectp_pkt_size) ∧
      (ECTP_PACKET_HDR_SZ + ectp_get_skipcount ectp_pkt + ECTP_MSG_FUNC_SZ
          + sizeof_ectp_reply_message < ectp_pkt_size →
        (ectp_pkt_valid ectp_pkt ectp_pkt_size ectpping_pid).1 = ECTP_PKT_VALID.GOOD) ∧
      (ECTP_PACKET_HDR_SZ + ectp_get_skipcount ectp_pkt + ECTP_MSG_FUNC_SZ
          + sizeof_ectp_reply_message = ectp_pkt_size →
        ectp_pkt_valid ectp_pkt ectp_pkt_size ectpping_pid
          = (ECTP_PKT_VALID.TOOSMALL, none)) := by
  have hlook := ((ectp_skipc_basicchk_ok_iff _ _).mp hskip).2
  have hnot : ¬ ectp_pkt_size < ECTP_PACKET_HDR_SZ := by omega
  have hnot2 : ¬ ECTP_PACKET_HDR_SZ + (ectp_get_skipcount ectp_pkt + ECTP_MSG_FUNC_SZ)
      ≥ ectp_pkt_size := by omega
  have htag2 : ectp_get_msg_type ectp_pkt (ectp_get_curr_msg_ptr ectp_pkt) = ECTP_RPLYMSG := by
    simpa [ectp_get_curr_msg_ptr, ectp_get_msg_ptr] using htag
  have htoken2 : ectp_get_rplymsg_rcpt_num ectp_pkt (ectp_get_curr_msg_ptr ectp_pkt)
      = ectpping_pid := by
    simpa [ectp_get_curr_msg_ptr, ectp_get_msg_ptr] using htoken
  have hsmall : ECTP_PACKET_HDR_SZ + ectp_get_skipcount ectp_pkt + ECTP_MSG_FUNC_SZ
      + sizeof_ectp_reply_message ≥ ectp_pkt_size →
      ectp_pkt_valid ectp_pkt ectp_pkt_size ectpping_pid = (ECTP_PKT_VALID.TOOSMALL, none) := by
    intro h
    unfold ectp_pkt_valid
    dsimp only
    rw [if_neg hnot, if_neg (by simp [hskip]), if_neg hnot2, if_neg (not_not.mpr htag2),
      if_pos (by omega)]
  have hgood : ECTP_PACKET_HDR_SZ + ectp_get_skipcount ectp_pkt + ECTP_MSG_FUNC_SZ
      + sizeof_ectp_reply_message < ectp_pkt_size →
      (ectp_pkt_valid ectp_pkt ectp_pkt_size ectpping_pid).1 = ECTP_PKT_VALID.GOOD := by
    intro h
    unfold ectp_pkt_valid
    dsimp only
    rw [if_neg hnot, if_neg (by simp [hskip]), if_neg hnot2, if_neg (not_not.mpr htag2),
      if_neg (by omega), if_neg (not_not.mpr htoken2)]
  refine ⟨⟨?_, ?_⟩, hgood, ?_⟩
  · intro h
    by_contra hc
    have := hgood (by omega)
    rw [this] at h
    exact absurd h (by decide)
  · intro h
    rw [hsmall h]
  · intro h
    exact hsmall (by omega)

/-- Witness of C13 as amended: a Reply with the expected token 7 and no data, six bytes
that end with the Reply header. -/
theorem ectp_pkt_valid_reply_header_bound_witness :
    ECTP_PACKET_HDR_SZ + ectp_get_skipcount [0, 1, 7, 0, 0, 0] + ECTP_MSG_FUNC_SZ
        + sizeof_ectp_reply_message = 6 ∧
      ectp_pkt_valid [0, 1, 7, 0, 0, 0] 6 7 = (ECTP_PKT_VALID.TOOSMALL, none) :=
  ⟨by decide,
    (ectp_pkt_valid_reply_header_bound [0, 1, 7, 0, 0, 0] 6 7
      (by decide) (by decide) (by decide) (by decide)).2.2 (by decide)⟩

/-- Counterexample to C13 as stated: the six-byte packet with skip count 0 and a Reply
with the expected token 7 and no data passes the length, skip-count and message-type
checks; its Reply header does not exceed the packet (1 + 0 + 1 + 4 = 6 is not above the
length 6), and it is answered with TOOSMALL. -/
theorem ectp_pkt_valid_reply_header_bound_counterexample :
    ECTP_PACKET_HDR_SZ ≤ 6 ∧
      ectp_skipc_basicchk_ok (ectp_get_skipcount [0, 1, 7, 0, 0, 0]) 6 = true ∧
      ectp_get_msg_type [0, 1, 7, 0, 0, 0]
        (ECTP_PACKET_HDR_SZ + ectp_get_skipcount [0, 1, 7, 0, 0, 0]) = ECTP_RPLYMSG ∧
      ectp_get_rplymsg_rcpt_num [0, 1, 7, 0, 0, 0]
        (ECTP_PACKET_HDR_SZ + ectp_get_skipcount [0, 1, 7, 0, 0, 0]) = 7 ∧
      ¬ (ECTP_PACKET_HDR_SZ + ectp_get_skipcount [0, 1, 7, 0, 0, 0] + ECTP_MSG_FUNC_SZ
        + sizeof_ectp_reply_message > 6) ∧
      (ectp_pkt_valid [0, 1, 7, 0, 0, 0] 6 7).1 = ECTP_PKT_VALID.TOOSMALL := by
  decide

/-- What an accepting run of `ectp_pkt_valid` has checked and what it returns. -/
theorem ectp_pkt_valid_good (ectp_pkt : List Nat) (ectp_pkt_size ectpping_pid : Nat)
    (hgood : (ectp_pkt_valid ectp_pkt ectp_pkt_size ectpping_pid).1 = ECTP_PKT_VALID.GOOD) :
    ectp_get_skipcount ectp_pkt % ECTP_FWDMSG_SZ = 0 ∧
      ECTP_PACKET_HDR_SZ + ectp_get_skipcount ectp_pkt + ECTP_MSG_FUNC_SZ
        + sizeof_ectp_reply_message < ectp_pkt_size ∧
      ectp_get_msg_type ectp_pkt (ECTP_PACKET_HDR_SZ + ectp_get_skipcount ectp_pkt)
        = ECTP_RPLYMSG ∧
      ectp_get_rplymsg_rcpt_num ectp_pkt (ECTP_PACKET_HDR_SZ + ectp_get_skipcount ectp_pkt)
        = ectpping_pid ∧
      (ectp_pkt_valid ectp_pkt ectp_pkt_size ectpping_pid).2
        = some (ECTP_PACKET_HDR_SZ + ectp_get_skipcount ectp_pkt + ECTP_MSG_FUNC_SZ
            + sizeof_ectp_reply_message,
          ectp_pkt_size - (ECTP_PACKET_HDR_SZ + ectp_get_skipcount ectp_pkt + ECTP_MSG_FUNC_SZ
            + sizeof_ectp_reply_message)) := by
  unfold ectp_pkt_valid at hgood ⊢
  dsimp only at hgood ⊢
  split at hgood
  · exact absurd hgood (by decide)
  · split at hgood
    · exact absurd hgood (by decide)
    · split at hgood
      · exact absurd hgood (by decide)
      · split at hgood
        · exact absurd hgood (by decide)
        · split at hgood
          · exact absurd hgood (by decide)
          · split at hgood
            · exact absurd hgood (by decide)
            · rename_i h1 h2 h3 h4 h5 h6
              have hchk : ectp_skipc_basicchk_ok (ectp_get_skipcount ectp_pkt) ectp_pkt_size
                  = true := by
                simpa using h2
              have hiff := (ectp_skipc_basicchk_ok_iff _ _).mp hchk
              rw [if_neg h1, if_neg h2, if_neg h3, if_neg h4, if_neg h5, if_neg h6]
              refine ⟨hiff.1, by omega, ?_, ?_, ?_⟩
              · simpa [ectp_get_curr_msg_ptr, ectp_get_msg_ptr] using h4
              · simpa [ectp_get_curr_msg_ptr, ectp_get_msg_ptr] using h6
              · simp only [ectp_get_rplymsg_data_ptr, ectp_get_curr_msg_ptr, ectp_get_msg_ptr]
                refine congrArg some (Prod.ext ?_ ?_)
                · rfl
                · show ectp_pkt_size - _ = ectp_pkt_size - _
                  omega

/-- C14: when `ectp_pkt_valid` accepts a packet, the payload it returns starts at offset
header size + skip count + message-type size + Reply header size, which lies inside the
packet, and its size is the packet length minus that offset, so that the subtraction does
not wrap and start plus size is the packet length: the payload is the trailing bytes of
the packet. -/
theorem ectp_pkt_valid_payload_span (ectp_pkt : List Nat) (ectp_pkt_size ectpping_pid : Nat)
    (hgood : (ectp_pkt_valid ectp_pkt ectp_pkt_size ectpping_pid).1 = ECTP_PKT_VALID.GOOD) :
    ∃ ectp_data ectp_data_size,
      (ectp_pkt_valid ectp_pkt ectp_pkt_size ectpping_pid).2
        = some (ectp_data, ectp_data_size) ∧
      ectp_data = ECTP_PACKET_HDR_SZ + ectp_get_skipcount ectp_pkt + ECTP_MSG_FUNC_SZ
        + sizeof_ectp_reply_message ∧
      ectp_data < ectp_pkt_size ∧
      (ectp_data_size : Int) = (ectp_pkt_size : Int) - (ectp_data : Int) ∧
      ectp_data + ectp_data_size = ectp_pkt_size ∧
      ((ectp_pkt.take ectp_pkt_size).drop ectp_data).length ≤ ectp_data_size ∧
      (ectp_pkt_size ≤ ectp_pkt.length →
        ((ectp_pkt.drop ectp_data).take ectp_data_size)
          = (ectp_pkt.take ectp_pkt_size).drop ectp_data) := by
  obtain ⟨_, hlt, _, _, hout⟩ := ectp_pkt_valid_good ectp_pkt ectp_pkt_size ectpping_pid hgood
  refine ⟨_, _, hout, rfl, hlt, by omega, by omega, ?_, ?_⟩
  · rw [List.length_drop, List.length_take]
    omega
  · intro hlen
    rw [List.drop_take]

/-- Witness of C14: the packet built for the sender alone, token 1234 and payload `[7]`:
the payload is the last byte, at offset 13 of 14. -/
theorem ectp_pkt_valid_payload_span_witness :
    ∃ ectp_data ectp_data_size,
      (ectp_pkt_valid [7, 2, 2, 0, 0, 0, 0, 1, 1, 210, 4, 0, 0, 7] 14 1234).2
        = some (ectp_data, ectp_data_size) ∧
      ectp_data = ECTP_PACKET_HDR_SZ
        + ectp_get_skipcount [7, 2, 2, 0, 0, 0, 0, 1, 1, 210, 4, 0, 0, 7] + ECTP_MSG_FUNC_SZ
        + sizeof_ectp_reply_message ∧
      ectp_data < 14 ∧
      (ectp_data_size : Int) = ((14 : Nat) : Int) - (ectp_data : Int) ∧
      ectp_data + ectp_data_size = 14 ∧
      (([7, 2, 2, 0, 0, 0, 0, 1, 1, 210, 4, 0, 0, 7].take 14).drop ectp_data).length
        ≤ ectp_data_size ∧
      (14 ≤ [7, 2, 2, 0, 0, 0, 0, 1, 1, 210, 4, 0, 0, 7].length →
        (([7, 2, 2, 0, 0, 0, 0, 1, 1, 210, 4, 0, 0, 7].drop ectp_data).take ectp_data_size)
          = ([7, 2, 2, 0, 0, 0, 0, 1, 1, 210, 4, 0, 0, 7].take 14).drop ectp_data) :=
  ectp_pkt_valid_payload_span [7, 2, 2, 0, 0, 0, 0, 1, 1, 210, 4, 0, 0, 7] 14 1234 (by decide)

/-! ## Theorems: the hop list, the frame length, the probe payload and the transmit loop -/

/-- The output of `print_rxed_packet` when the zero-output mode is off. -/
theorem print_rxed_packet_output (g : Globals) (a : rxed_packet_args)
    (hzero : a.prog_parms.zero_pkt_output = false) :
    (print_rxed_packet g a).2
      = Out.rxed_line a.pkt_len a.srcmac a.eping_payload.seq_num a.tv_diff ::
          (if ectp_get_skipcount a.ectp_pkt > 8 then [Out.src_rt (print_ectp_src_rt a.ectp_pkt)]
            else []) := by
  simp [print_rxed_packet, hzero]

/-- C16, as amended: for an accepted reply, with the zero-output mode off,
`print_rxed_packet` prints the hop list exactly when the skip count of the packet covers
at least two Forward messages; it prints none for a skip count of exactly one Forward
message and none for the skip count 0.  What it prints is the list that
`print_ectp_src_rt` finds. -/
theorem print_rxed_packet_src_rt (g : Globals) (a : rxed_packet_args)
    (ectp_pkt_size ectpping_pid : Nat)
    (hgood : (ectp_pkt_valid a.ectp_pkt ectp_pkt_size ectpping_pid).1 = ECTP_PKT_VALID.GOOD)
    (hzero : a.prog_parms.zero_pkt_output = false) :
    ((∃ fwdaddrs, Out.src_rt fwdaddrs ∈ (print_rxed_packet g a).2) ↔
        2 * ECTP_FWDMSG_SZ ≤ ectp_get_skipcount a.ectp_pkt) ∧
      (2 * ECTP_FWDMSG_SZ ≤ ectp_get_skipcount a.ectp_pkt →
        (print_rxed_packet g a).2
          = [Out.rxed_line a.pkt_len a.srcmac a.eping_payload.seq_num a.tv_diff,
              Out.src_rt (print_ectp_src_rt a.ectp_pkt)]) ∧
      (ectp_get_skipcount a.ectp_pkt ≤ ECTP_FWDMSG_SZ →
        (print_rxed_packet g a).2
          = [Out.rxed_line a.pkt_len a.srcmac a.eping_payload.seq_num a.tv_diff]) := by
  have hmod := (ectp_pkt_valid_good a.ectp_pkt ectp_pkt_size ectpping_pid hgood).1
  have e : ECTP_FWDMSG_SZ = 7 := rfl
  rw [print_rxed_packet_output g a hzero]
  rw [e] at hmod ⊢
  by_cases h8 : ectp_get_skipcount a.ectp_pkt > 8
  · rw [if_pos h8]
    refine ⟨⟨fun _ => by omega, fun _ => ⟨print_ectp_src_rt a.ectp_pkt, by simp⟩⟩, fun _ => rfl, fun h => by omega⟩
  · rw [if_neg h8]
    refine ⟨⟨?_, fun h => by omega⟩, fun h => by omega, fun _ => rfl⟩
    rintro ⟨fwdaddrs, hmem⟩
    simp at hmem

/-- Witness of C16 as amended: an accepted Reply behind two Forward messages; the two
addresses are printed. -/
theorem print_rxed_packet_src_rt_witness :
    (∃ fwdaddrs, Out.src_rt fwdaddrs ∈
        (print_rxed_packet Globals.init example_rxed_call_two_hops).2) ∧
      (print_rxed_packet Globals.init example_rxed_call_two_hops).2
        = [Out.rxed_line 35 ⟨0, 17, 34, 51, 68, 85⟩ 0 ⟨0, 5000⟩,
            Out.src_rt (some [⟨0, 17, 34, 51, 68, 85⟩, ⟨2, 0, 0, 0, 0, 1⟩])] :=
  ⟨((print_rxed_packet_src_rt Globals.init example_rxed_call_two_hops 21 1234
      (by decide) (by decide)).1).mpr (by decide),
    by decide⟩

/-- Counterexample to C16 as stated: an accepted Reply behind exactly one Forward message,
with the zero-output mode off.  The skip count covers one Forward message and the chain
before the current message holds one address, yet only the line of the reply is printed,
without a hop list. -/
theorem print_rxed_packet_src_rt_counterexample :
    (ectp_pkt_valid (example_rxed_call ⟨10, 5000⟩).ectp_pkt 14 1234).1 = ECTP_PKT_VALID.GOOD ∧
      (example_rxed_call ⟨10, 5000⟩).prog_parms.zero_pkt_output = false ∧
      ectp_get_skipcount (example_rxed_call ⟨10, 5000⟩).ectp_pkt = ECTP_FWDMSG_SZ ∧
      print_ectp_src_rt (example_rxed_call ⟨10, 5000⟩).ectp_pkt = some [⟨2, 0, 0, 0, 0, 1⟩] ∧
      (print_rxed_packet Globals.init (example_rxed_call ⟨10, 5000⟩)).2
        = [Out.rxed_line 28 ⟨0, 17, 34, 51, 68, 85⟩ 0 ⟨0, 5000⟩] := by
  decide

/-- C17, the code at the failing input: for the configured chain of two addresses and the
payload `[7, 8, 9]` in a buffer of 64 bytes `build_ectp_frame` returns GOOD and reports
the frame length 30, the length for one Forward message, while the packet it has encoded
holds two Forward messages and takes 23 bytes, a frame of 37 bytes, which the buffer
holds.  The 16 packet bytes of the reported frame are not accepted by `ectp_pkt_valid`;
the 23 bytes of the encoded packet are. -/
theorem build_ectp_frame_len_two_hops :
    build_ectp_frame example_parms_two_hops (List.replicate 64 0) 64 [7, 8, 9] 3 1234 true
      = (BUILD_ECTP_FRAME.GOOD,
          build_ectp_eth_hdr example_parms_two_hops.srcmac example_parms_two_hops.dstmac
            ++ ectp_packet_bytes example_parms_two_hops.fwdaddrs 1234 [7, 8, 9]
            ++ List.replicate 27 0,
          some 30) ∧
      (ectp_packet_bytes example_parms_two_hops.fwdaddrs 1234 [7, 8, 9]).length = 23 ∧
      ETH_HLEN + ectp_calc_packet_size 2 3 = 37 ∧
      ETH_HLEN + ectp_calc_packet_size 1 3 = 30 ∧
      (ectp_pkt_valid
          ((build_ectp_frame example_parms_two_hops (List.replicate 64 0) 64 [7, 8, 9] 3 1234
            true).2.1.drop ETH_HLEN)
          (30 - ETH_HLEN) 1234).1 ≠ ECTP_PKT_VALID.GOOD ∧
      (ectp_pkt_valid
          ((build_ectp_frame example_parms_two_hops (List.replicate 64 0) 64 [7, 8, 9] 3 1234
            true).2.1.drop ETH_HLEN)
          (37 - ETH_HLEN) 1234).1 = ECTP_PKT_VALID.GOOD := by
  decide

/-- C18, the code at the failing input: the seven-byte packet with skip count 0 and a
Reply with token 1234 and one byte of data is accepted with the payload size 1, below the
size of `struct ectpping_payload`; the `memcpy` of `print_rxed_packet` from the payload
offset 6 then reads up to offset 30, past the end of the packet. -/
theorem print_rxed_packet_memcpy_past_packet :
    ectp_pkt_valid [0, 1, 210, 4, 0, 0, 42] 7 1234 = (ECTP_PKT_VALID.GOOD, some (6, 1)) ∧
      1 < sizeof_ectpping_payload ∧
      print_rxed_packet_memcpy_end 6 = 30 ∧
      7 < print_rxed_packet_memcpy_end 6 := by
  decide

/-- C15, the code at the failing input: in every iteration of the loop of `tx_thread` in
which `malloc` fails, `build_ectp_frame` does not return GOOD and stores no frame length,
and the iteration still hands the buffer to `send`, with the frame length left from
before, counts the packet as transmitted and goes on to the sleep before the next
iteration.  The same holds whenever `build_ectp_frame` does not return GOOD. -/
theorem tx_thread_iter_sends_after_failed_build (prog_parms : program_parameters)
    (ectpping_pid : Nat) (g : Globals) (l : tx_thread_locals) (now : timeval)
    (eping_payload_bytes : List Nat) :
    ((build_ectp_frame prog_parms l.tx_frame_buf 65535 eping_payload_bytes
          sizeof_ectpping_payload ectpping_pid false).1 = BUILD_ECTP_FRAME.BADBUFSIZE ∨
        (build_ectp_frame prog_parms l.tx_frame_buf 65535 eping_payload_bytes
          sizeof_ectpping_payload ectpping_pid false).1 = BUILD_ECTP_FRAME.NOMEM) ∧
      (tx_thread_iter prog_parms ectpping_pid g l
          { now := now, eping_payload_bytes := eping_payload_bytes, malloc_ok := false }).2.2
        = [TxAction.send
            (build_ectp_frame prog_parms l.tx_frame_buf 65535 eping_payload_bytes
              sizeof_ectpping_payload ectpping_pid false).2.1 l.ectp_frame_len,
            TxAction.sending_packet_line l.eping_payload.seq_num now,
            TxAction.usleep (prog_parms.interval_ms * 1000 % UINT_MOD)] ∧
      (tx_thread_iter prog_parms ectpping_pid g l
          { now := now, eping_payload_bytes := eping_payload_bytes, malloc_ok := false }).1.txed_pkts
        = (g.txed_pkts + 1) % UINT_MOD ∧
      (∀ t : tx_tick,
        (build_ectp_frame prog_parms l.tx_frame_buf 65535 t.eping_payload_bytes
            sizeof_ectpping_payload ectpping_pid t.malloc_ok).1 = BUILD_ECTP_FRAME.GOOD ∨
          (tx_thread_iter prog_parms ectpping_pid g l t).2.2.head?
            = some (TxAction.send
                (build_ectp_frame prog_parms l.tx_frame_buf 65535 t.eping_payload_bytes
                  sizeof_ectpping_payload ectpping_pid t.malloc_ok).2.1 l.ectp_frame_len)) := by
  have hfail : ∀ (ok : Bool),
      (build_ectp_frame prog_parms l.tx_frame_buf 65535 eping_payload_bytes
          sizeof_ectpping_payload ectpping_pid ok).1 ≠ BUILD_ECTP_FRAME.GOOD →
      (build_ectp_frame prog_parms l.tx_frame_buf 65535 eping_payload_bytes
          sizeof_ectpping_payload ectpping_pid ok).2.2 = none := by
    intro ok
    unfold build_ectp_frame
    dsimp only
    split
    · intro _; rfl
    · split
      · intro _; rfl
      · split
        · intro _; rfl
        · intro h; exact absurd rfl h
  have hres : (build_ectp_frame prog_parms l.tx_frame_buf 65535 eping_payload_bytes
        sizeof_ectpping_payload ectpping_pid false).1 = BUILD_ECTP_FRAME.BADBUFSIZE ∨
      (build_ectp_frame prog_parms l.tx_frame_buf 65535 eping_payload_bytes
        sizeof_ectpping_payload ectpping_pid false).1 = BUILD_ECTP_FRAME.NOMEM := by
    unfold build_ectp_frame
    dsimp only
    split
    · left; rfl
    · split
      · left; rfl
      · right; simp
  have hnone := hfail false (by rcases hres with h | h <;> rw [h] <;> decide)
  refine ⟨hres, ?_, rfl, ?_⟩
  · simp only [tx_thread_iter, hnone]
  · intro t
    by_cases hg : (build_ectp_frame prog_parms l.tx_frame_buf 65535 t.eping_payload_bytes
        sizeof_ectpping_payload ectpping_pid t.malloc_ok).1 = BUILD_ECTP_FRAME.GOOD
    · exact Or.inl hg
    · right
      have hn : (build_ectp_frame prog_parms l.tx_frame_buf 65535 t.eping_payload_bytes
          sizeof_ectpping_payload ectpping_pid t.malloc_ok).2.2 = none := by
        revert hg
        unfold build_ectp_frame
        dsimp only
        split
        · intro _; rfl
        · split
          · intro _; rfl
          · split
            · intro _; rfl
            · intro h; exact absurd rfl h
      simp only [tx_thread_iter, hn, List.head?_cons]

/-! ## Theorems: the shutdown sequence -/

/-- C12: in the sequence of actions of `sigint_hdlr` there are exactly two thread
cancellations, first that of the transmit thread and then that of the receive thread;
between them lies the wait of 100 ms exactly when `rxed_pkts` differs from `txed_pkts`,
and nothing else; the statistics report (one heading, one line of packet counts and at
most one round-trip line) is printed once, after both cancellations; and the sequence
ends with its only `exit`, with the success status. -/
theorem sigint_hdlr_sequence (g : Globals) (prog_parms : program_parameters)
    (fwdaddrs_not_null : Bool) :
    (sigint_hdlr g prog_parms fwdaddrs_not_null).filter Action.is_cancel
        = [Action.pthread_cancel thread_hdl.tx_thread_hdl,
            Action.pthread_cancel thread_hdl.rx_thread_hdl] ∧
      (sigint_hdlr g prog_parms fwdaddrs_not_null).takeWhile
          (fun a => decide (a ≠ Action.pthread_cancel thread_hdl.rx_thread_hdl))
        = Action.pthread_cancel thread_hdl.tx_thread_hdl ::
            (if g.rxed_pkts ≠ g.txed_pkts then [Action.usleep 100000] else []) ∧
      (∃ figure round_trip,
        (sigint_hdlr g prog_parms fwdaddrs_not_null).filter Action.is_report
          = Action.statistics_heading prog_parms.dstmac (!prog_parms.no_resolve) ::
              Action.packets_line g.txed_pkts g.rxed_pkts figure :: round_trip ∧
        round_trip.length ≤ 1 ∧
        ∀ a ∈ round_trip, ∃ min_rtt avg max_rtt sum_rtts,
          a = Action.round_trip_line min_rtt avg max_rtt sum_rtts) ∧
      (∀ a ∈ (sigint_hdlr g prog_parms fwdaddrs_not_null).takeWhile
          (fun a => decide (a ≠ Action.pthread_cancel thread_hdl.rx_thread_hdl)),
        a.is_report = false) ∧
      (sigint_hdlr g prog_parms fwdaddrs_not_null).filter Action.is_exit
        = [Action.exit EXIT_SUCCESS] ∧
      (sigint_hdlr g prog_parms fwdaddrs_not_null).getLast? = some (Action.exit EXIT_SUCCESS) := by
  unfold sigint_hdlr
  by_cases h1 : g.rxed_pkts ≠ g.txed_pkts <;> by_cases h2 : fwdaddrs_not_null = true <;>
    by_cases h3 : g.txed_pkts > 0 <;> cases h4 : sigint_hdlr_avg g <;>
    simp [h1, h2, h3, h4, Action.is_cancel, Action.is_report, Action.is_exit, List.filter,
      List.takeWhile] <;>
    first
      | exact ⟨_, [], ⟨rfl, rfl⟩, by simp, by simp⟩
      | exact ⟨_, _, ⟨rfl, rfl⟩, by simp, by
          intro a ha
          simp at ha
          exact ⟨_, _, _, _, _, ha⟩⟩

/-! ## Theorems: the forward chain of the command line -/

/-- The loop of `get_prog_opt_fwdaddrs` appends, in order, the addresses of the fields
that have one. -/
theorem get_prog_opt_fwdaddrs_loop_eq (enet_pton ether_hostton : List Char → Option ether_addr)
    (fields : List (List Char)) :
    ∀ stored : List ether_addr,
      get_prog_opt_fwdaddrs_loop enet_pton ether_hostton fields stored
        = stored ++ fields.filterMap (fwdaddr_of_string enet_pton ether_hostton) := by
  induction fields with
  | nil => intro stored; simp [get_prog_opt_fwdaddrs_loop]
  | cons field rest ih =>
    intro stored
    unfold get_prog_opt_fwdaddrs_loop
    cases h1 : enet_pton field with
    | some a =>
      simp only [ih]
      simp [List.filterMap_cons, fwdaddr_of_string, h1]
    | none =>
      cases h2 : ether_hostton field with
      | some a =>
        simp only [ih]
        simp [List.filterMap_cons, fwdaddr_of_string, h1, h2]
      | none =>
        simp only [ih]
        simp [List.filterMap_cons, fwdaddr_of_string, h1, h2]

/-- The strings that `sscanf` finds are the runs of the input between white space: none
is empty, none holds white space, and together they are the input without its white
space. -/
theorem sscanf_strings_runs (input : List Char) :
    ∀ current : List Char, (∀ c ∈ current, isspace c = false) →
      (∀ s ∈ sscanf_strings input current, s ≠ [] ∧ ∀ c ∈ s, isspace c = false) ∧
      (sscanf_strings input current).flatten
        = current.reverse ++ input.filter (fun c => !isspace c) := by
  induction input with
  | nil =>
    intro current hcur
    unfold sscanf_strings
    by_cases h : current = []
    · simp [h]
    · simp only [if_neg h, List.mem_singleton, forall_eq, List.flatten_cons, List.flatten_nil,
        List.append_nil, List.filter_nil]
      refine ⟨⟨by simpa using h, ?_⟩, trivial⟩
      intro c hc
      exact hcur c (List.mem_reverse.mp hc)
  | cons c rest ih =>
    intro current hcur
    unfold sscanf_strings
    by_cases hsp : isspace c = true
    · have hrest := ih [] (by simp)
      by_cases h : current = []
      · simp only [hsp, if_true, h, List.reverse_nil, List.nil_append]
        refine ⟨hrest.1, ?_⟩
        rw [hrest.2]
        simp [hsp]
      · simp only [hsp, if_true, if_neg h, List.mem_cons, List.flatten_cons]
        refine ⟨?_, ?_⟩
        · intro s hs
          rcases hs with rfl | hs
          · exact ⟨by simpa using h, fun d hd => hcur d (List.mem_reverse.mp hd)⟩
          · exact hrest.1 s hs
        · rw [hrest.2]
          simp [hsp]
    · have hsp2 : isspace c = false := by simpa using hsp
      have hrest := ih (c :: current) (by
        intro d hd
        rcases List.mem_cons.mp hd with rfl | hd
        · exact hsp2
        · exact hcur d hd)
      simp only [hsp2, Bool.false_eq_true, if_false]
      refine ⟨hrest.1, ?_⟩
      rw [hrest.2]
      simp [hsp2]

/-- C11, as amended: when `calloc` succeeds and each of the first ten strings of the `-f`
argument fits its field of 50 bytes, `get_prog_opt_fwdaddrs` reports success and returns,
in input order, exactly the addresses of those of the first ten strings that are a
hardware-address literal or a known host name, the empty string being neither; a string
that is neither is dropped, and the chain has at most ten entries.  When `calloc` fails
the function reports GET_PROG_OPT_FWDADDRS_BAD. -/
theorem get_prog_opt_fwdaddrs_chain (enet_pton ether_hostton : List Char → Option ether_addr)
    (fwdaddrs_str : List Char)
    (hfit : ∀ s ∈ (sscanf_strings fwdaddrs_str []).take 10, s.length < 50)
    (hempty : enet_pton [] = none ∧ ether_hostton [] = none) :
    get_prog_opt_fwdaddrs enet_pton ether_hostton true fwdaddrs_str
        = some (GET_PROG_OPT_FWDADDRS.GOOD,
            some (((sscanf_strings fwdaddrs_str []).take 10).filterMap
                (fwdaddr_of_string enet_pton ether_hostton),
              (((sscanf_strings fwdaddrs_str []).take 10).filterMap
                (fwdaddr_of_string enet_pton ether_hostton)).length)) ∧
      (((sscanf_strings fwdaddrs_str []).take 10).filterMap
        (fwdaddr_of_string enet_pton ether_hostton)).length ≤ 10 ∧
      get_prog_opt_fwdaddrs enet_pton ether_hostton false fwdaddrs_str
        = some (GET_PROG_OPT_FWDADDRS.BAD, none) := by
  have hany : ((sscanf_strings fwdaddrs_str []).take 10).any
      (fun s => decide (50 ≤ s.length)) = false := by
    rw [List.any_eq_false]
    intro s hs
    have := hfit s hs
    simp only [decide_eq_true_eq]
    omega
  have hpad : (List.replicate (10 - ((sscanf_strings fwdaddrs_str []).take 10).length)
      ([] : List Char)).filterMap (fwdaddr_of_string enet_pton ether_hostton) = [] := by
    rw [List.filterMap_eq_nil_iff]
    intro s hs
    rw [(List.mem_replicate.mp hs).2]
    simp [fwdaddr_of_string, hempty.1, hempty.2]
  refine ⟨?_, ?_, ?_⟩
  · unfold get_prog_opt_fwdaddrs
    simp only [Bool.true_eq_false, if_false, hany]
    rw [get_prog_opt_fwdaddrs_loop_eq, List.nil_append, List.filterMap_append, hpad,
      List.append_nil]
    simp
  · calc (((sscanf_strings fwdaddrs_str []).take 10).filterMap
          (fwdaddr_of_string enet_pton ether_hostton)).length
        ≤ ((sscanf_strings fwdaddrs_str []).take 10).length := List.length_filterMap_le _ _
      _ ≤ 10 := by rw [List.length_take]; omega
  · simp [get_prog_opt_fwdaddrs]

/-- Witness of C11 as amended, the example of the claim: of `00:11:22:33:44:55 unknownhost`
the literal is kept and the name that does not resolve is dropped; the chain has length
1. -/
theorem get_prog_opt_fwdaddrs_chain_witness :
    sscanf_strings "00:11:22:33:44:55 unknownhost".toList []
        = ["00:11:22:33:44:55".toList, "unknownhost".toList] ∧
      get_prog_opt_fwdaddrs example_enet_pton example_ether_hostton true
          "00:11:22:33:44:55 unknownhost".toList
        = some (GET_PROG_OPT_FWDADDRS.GOOD, some ([⟨0, 17, 34, 51, 68, 85⟩], 1)) :=
  ⟨by decide,
    (get_prog_opt_fwdaddrs_chain example_enet_pton example_ether_hostton
      "00:11:22:33:44:55 unknownhost".toList (by decide) (by decide)).1.trans (by decide)⟩

/-- Counterexample to C11 as stated.  When `calloc` fails, the function reports
GET_PROG_OPT_FWDADDRS_BAD for the `-f` string of the claim and returns no chain.  And the
loop goes through all ten fields, also the empty ones behind the last string: with a
resolver that knows every name, the empty one included, the single string `a` gives a
chain of ten addresses. -/
theorem get_prog_opt_fwdaddrs_chain_counterexample :
    get_prog_opt_fwdaddrs example_enet_pton example_ether_hostton false
        "00:11:22:33:44:55 unknownhost".toList
      = some (GET_PROG_OPT_FWDADDRS.BAD, none) ∧
    sscanf_strings "a".toList [] = ["a".toList] ∧
    get_prog_opt_fwdaddrs example_enet_pton example_ether_hostton_any true "a".toList
      = some (GET_PROG_OPT_FWDADDRS.GOOD, some (List.replicate 10 ⟨2, 0, 0, 0, 0, 9⟩, 10)) := by
  decide

end Ectpping
